import Mathlib

/-!
Verification of the BLE kettle protocol engine in `src/utils/kettle_ble.py`
(class `StaggEKGPro_Config`).

The 17-byte configuration blob is modelled as a `List Nat` (one entry per
byte; a Python bytearray cell always holds a value in `[0, 256)`).  The
controller state is the cached blob together with the `_counter` field.

Python floats are modelled by `PyNum`, an exact unnormalized rational with
integer numerator and denominator.  Every float operation performed by the
source on temperatures (halving a byte, doubling, comparison against the
integer bounds 0 and 100) is exact in binary floating point, so exact
rational arithmetic is a faithful model of those code paths.  Reachable
values always have a positive denominator; theorems about numeric values
carry that hypothesis explicitly.
-/

set_option maxRecDepth 10000

namespace StaggEKG

/-- Exact value of a Python float: numerator over denominator, unnormalized. -/
structure PyNum where
  num : Int
  den : Int
deriving DecidableEq, Repr

/-- A Python int literal used as a float operand. -/
def PyNum.ofNat (n : Nat) : PyNum := ⟨n, 1⟩

/-- The value `b / 2.0` computed from a byte `b` (exact in floating point). -/
def byteHalf (n : Nat) : PyNum := ⟨n, 2⟩

/-- Strict comparison of two exact float values (denominators positive). -/
def PyNum.blt (a b : PyNum) : Bool := a.num * b.den < b.num * a.den

/-- Python `min(a, b)`: returns `b` exactly when `b < a`. -/
def pymin (a b : PyNum) : PyNum := if b.blt a then b else a

/-- Python `max(a, b)`: returns `b` exactly when `a < b`. -/
def pymax (a b : PyNum) : PyNum := if a.blt b then b else a

/-- Multiplication by 2 (exact in floating point). -/
def PyNum.mul2 (a : PyNum) : PyNum := ⟨2 * a.num, a.den⟩

/-- Python `int(...)` on a float: truncation toward zero. -/
def pyTrunc (a : PyNum) : Int := a.num.tdiv a.den

/-- The clamp `max(0, min(100, temp_celsius))` applied by every temperature
setter in the source. -/
def clampTemp (t : PyNum) : PyNum := pymax (PyNum.ofNat 0) (pymin (PyNum.ofNat 100) t)

/-- Python `round(n / 30)` for a nonnegative integer `n`: round half to even.
For `n` in the reachable range the float division `n / 30` is close enough to
the exact quotient that rounding agrees with exact rational rounding, and the
tie cases `n = 30*k + 15` are exactly representable, so this integer function
is a faithful model. -/
def pyRound30 (n : Nat) : Nat :=
  if n % 30 < 15 then n / 30
  else if 15 < n % 30 then n / 30 + 1
  else if (n / 30) % 2 = 0 then n / 30 else n / 30 + 1

/-- Clock display modes (`class ClockMode`). -/
inductive ClockMode
  | off
  | digital
  | analog
deriving DecidableEq, Repr

/-- The `.value` of a `ClockMode` member. -/
def ClockMode.val : ClockMode → Nat
  | .off => 0
  | .digital => 1
  | .analog => 2

/-- Temperature units (`class Units`). -/
inductive Units
  | celsius
  | fahrenheit
deriving DecidableEq, Repr

/-- Schedule modes (`class ScheduleMode`). -/
inductive ScheduleMode
  | off
  | once
  | daily
deriving DecidableEq, Repr

/-- Python `mode.name.lower()`. -/
def ScheduleMode.pyName : ScheduleMode → String
  | .off => "off"
  | .once => "once"
  | .daily => "daily"

/-- Menu languages (`class Language`). -/
inductive Language
  | english
  | french
  | spanish
  | simplifiedChinese
  | traditionalChinese
deriving DecidableEq, Repr

/-- The `.value` of a `Language` member. -/
def Language.val : Language → Nat
  | .english => 0
  | .french => 1
  | .spanish => 2
  | .simplifiedChinese => 3
  | .traditionalChinese => 4

/-- Cached controller state: `_state_data` (the 17-byte blob) and `_counter`. -/
structure KState where
  data : List Nat
  counter : Nat
deriving DecidableEq, Repr

/-- The pure effect of `_write_state(new_data)` on a connected controller:
byte 16 of the outgoing blob is overwritten with `(self._counter + 1) & 0xFF`,
the blob is written to the device, and the cache and counter are updated from
the written blob.  The written bytes equal the `data` of the result. -/
def write_state (s : KState) (new_data : List Nat) : KState :=
  let nd := new_data.set 16 ((s.counter + 1) % 256)
  { data := nd, counter := (s.counter + 1) % 256 }

/-- The effect of `set_target_temperature(temp_celsius)` (state cached). -/
def set_target_temperature (s : KState) (temp_celsius : PyNum) : KState :=
  let t := clampTemp temp_celsius
  write_state s (s.data.set 4 (pyTrunc t.mul2).toNat)

/-- The effect of `set_units(units)`.  A bytearray cell is below 256, so the
Python `&= ~0x02` is masking with `0xFD`. -/
def set_units (s : KState) (units : Units) : KState :=
  let b1 := s.data.getD 1 0
  let b1 := if units = Units.celsius then b1 ||| 0x02 else b1 &&& 0xFD
  write_state s (s.data.set 1 b1)

/-- The effect of `set_clock_mode(mode)`. -/
def set_clock_mode (s : KState) (mode : ClockMode) : KState :=
  write_state s (s.data.set 12 mode.val)

/-- The effect of `set_clock_time(hours, minutes, mode)`: hour and minute are
validated before any write; `ValueError` is modelled as `Except.error`. -/
def set_clock_time (s : KState) (hours minutes : Int) (mode : Option ClockMode) :
    Except String KState :=
  if ¬(0 ≤ hours ∧ hours ≤ 23) then .error "Hours must be between 0 and 23"
  else if ¬(0 ≤ minutes ∧ minutes ≤ 59) then .error "Minutes must be between 0 and 59"
  else
    let nd := (s.data.set 10 minutes.toNat).set 11 hours.toNat
    let nd := match mode with
      | some m => nd.set 12 m.val
      | none => nd
    .ok (write_state s nd)

/-- The effect of `set_chime_volume(volume)`: the volume is clamped, not
validated. -/
def set_chime_volume (s : KState) (volume : Int) : KState :=
  let v := max 0 (min 10 volume)
  write_state s (s.data.set 14 v.toNat)

/-- The effect of `set_pre_boil(enabled)` (see `set_units` for the mask). -/
def set_pre_boil (s : KState) (enabled : Bool) : KState :=
  let b1 := s.data.getD 1 0
  let b1 := if enabled then b1 ||| 0x08 else b1 &&& 0xF7
  write_state s (s.data.set 1 b1)

/-- The effect of `set_hold_time(minutes)`: clamped to `[0, 60]`. -/
def set_hold_time (s : KState) (minutes : Int) : KState :=
  let m := max 0 (min 60 minutes)
  write_state s (s.data.set 13 m.toNat)

/-- The effect of `set_altitude(altitude_meters)`: clamp to `[0, 3000]`,
round to the nearest 30 m, split over bytes 2 and 3. -/
def set_altitude (s : KState) (altitude_meters : Int) : KState :=
  let a := (max 0 (min 3000 altitude_meters)).toNat
  let quantized := pyRound30 a * 30
  let byte2 := quantized &&& 0xFF
  let byte3 := 0x80 + ((quantized >>> 8) &&& 0x7F)
  write_state s ((s.data.set 2 byte2).set 3 byte3)

/-- The result of `get_altitude()`. -/
def get_altitude (s : KState) : Option Nat :=
  if s.data.length < 4 then none
  else
    let byte2 := s.data.getD 2 0
    let byte3 := s.data.getD 3 0
    let altitude := ((byte3 &&& 0x7F) <<< 8) ||| byte2
    some (pyRound30 altitude * 30)

/-- The effect of `set_language(language)`. -/
def set_language (s : KState) (language : Language) : KState :=
  write_state s (s.data.set 15 language.val)

/-- The result of `get_schedule_mode()`. -/
def get_schedule_mode (s : KState) : Option String :=
  if s.data.length < 17 then none
  else if s.data.getD 0 0 &&& 0x08 = 0 then some "off"
  else if (s.data.getD 16 0 >>> 3) &&& 1 = 1 then some "once"
  else some "daily"

/-- The dictionary returned by `get_schedule()`; `none` models the empty
dictionary returned when fewer than 17 bytes are cached. -/
structure ScheduleInfo where
  schedule_mode : String
  schedule_enabled : Bool
  schedule_temperature : Option PyNum
  schedule_hour : Option Nat
  schedule_minute : Option Nat
deriving DecidableEq, Repr

/-- The result of `get_schedule()`. -/
def get_schedule (s : KState) : Option ScheduleInfo :=
  if s.data.length < 17 then none
  else if s.data.getD 0 0 &&& 0x08 = 0 then
    some ⟨"off", false, none, none, none⟩
  else
    some ⟨(if (s.data.getD 16 0 >>> 3) &&& 1 = 1 then "once" else "daily"), true,
      some (byteHalf (s.data.getD 6 0)), some (s.data.getD 9 0), some (s.data.getD 8 0)⟩

/-- The blob mutation of the schedule-off branch: clear bit 3 of byte 0, set
byte 6 to the `0xC0` sentinel, zero bytes 8 and 9. -/
def scheduleOffBlob (d : List Nat) : List Nat :=
  (((d.set 0 (d.getD 0 0 &&& 0xF7)).set 6 0xC0).set 8 0x00).set 9 0x00

/-- The `needs_disable` test of `set_schedule`: the decoded current mode is a
non-off mode different from the requested one. -/
def needsDisable (s : KState) (mode : ScheduleMode) : Bool :=
  decide ((get_schedule_mode s = some "once" ∨ get_schedule_mode s = some "daily") ∧
    get_schedule_mode s ≠ some mode.pyName)

/-- Step 1 of the two-phase mode change: the off encoding with the manual
counter bump on byte 16 (which `_write_state` then overwrites anyway). -/
def disabledFirst (s : KState) : KState :=
  write_state s ((scheduleOffBlob s.data).set 16 ((s.data.getD 16 0 + 1) % 256))

/-- The enable blob of `set_schedule` before its byte-16 manipulation: enable
bit on byte 0, doubled clamped temperature on byte 6, minute and hour on
bytes 8 and 9. -/
def enableBlob (s1 : KState) (hour minute : Int) (temp : PyNum) : List Nat :=
  (((s1.data.set 0 (s1.data.getD 0 0 ||| 0x08)).set 6
    (pyTrunc (clampTemp temp).mul2).toNat).set 8 minute.toNat).set 9 hour.toNat

/-- The byte-16 value `set_schedule` stores into the enable blob: set bit 3
and add one for ONCE, clear bit 3 and add one for DAILY. -/
def enableByte16 (nd : List Nat) (mode : ScheduleMode) : Nat :=
  if mode = ScheduleMode.once then (nd.getD 16 0 ||| 0x08) + 1
  else (nd.getD 16 0 &&& 0xF7) + 1

/-- Step 2 of `set_schedule` (also the whole of its write phase when no
disable is needed): build the enable blob from the current cached state,
store the mode/counter byte 16, and issue one physical write.  When the
byte-16 value overflows a bytearray cell (`(b | 0x08) + 1 = 256` at cached
byte 16 in 247, 255 for ONCE) Python raises `ValueError` before
`_write_state` runs; the error carries the unchanged state and the empty
list of writes issued by this phase, because a raised exception does not
roll back side effects already performed. -/
def schedEnablePhase (s1 : KState) (mode : ScheduleMode) (hour minute : Int)
    (temp_celsius : PyNum) :
    Except (String × KState × List (List Nat)) (KState × List (List Nat)) :=
  let nd := enableBlob s1 hour minute temp_celsius
  let v := enableByte16 nd mode
  if v ≤ 255 then
    let s2 := write_state s1 (nd.set 16 v)
    .ok (s2, [s2.data])
  else .error ("byte must be in range(0, 256)", s1, [])

/-- The two-phase path of `set_schedule`: the disable write of `disabledFirst`
(followed by the 0.3 s pause), then the enable phase from the updated cache.
When the enable phase raises, the disable write has already been physically
issued and cached, so the propagated error keeps the advanced state and
records that write. -/
def schedTwoPhase (s : KState) (mode : ScheduleMode) (hour minute : Int)
    (temp_celsius : PyNum) :
    Except (String × KState × List (List Nat)) (KState × List (List Nat)) :=
  let s1 := disabledFirst s
  match schedEnablePhase s1 mode hour minute temp_celsius with
  | .ok (s2, ws) => .ok (s2, s1.data :: ws)
  | .error err => .error (err.1, err.2.1, s1.data :: err.2.2)

/-- The effect of `set_schedule(mode, hour, minute, temp_celsius)` (source
defaults: hour 0, minute 0, temperature 85).  The result carries the list of
physically written blobs, in order; an `Except.error` models a raised
`ValueError` and carries the message, the state the object is left in, and
the writes already issued before the raise (none for the validation errors,
which precede every write). -/
def set_schedule (s : KState) (mode : ScheduleMode) (hour minute : Int)
    (temp_celsius : PyNum) :
    Except (String × KState × List (List Nat)) (KState × List (List Nat)) :=
  if mode = ScheduleMode.off then
    let s1 := write_state s (scheduleOffBlob s.data)
    .ok (s1, [s1.data])
  else if ¬(0 ≤ hour ∧ hour ≤ 23) then .error ("Hour must be between 0 and 23", s, [])
  else if ¬(0 ≤ minute ∧ minute ≤ 59) then .error ("Minutes must be between 0 and 59", s, [])
  else if needsDisable s mode then schedTwoPhase s mode hour minute temp_celsius
  else schedEnablePhase s mode hour minute temp_celsius

/-- The trigger time of `turn_on_smart`: the device clock read from bytes 11
(hour) and 10 (minute), plus one minute, with the rollover handling of the
source (minute 60 rolls to 0 with hour + 1, hour 24 rolls to 0). -/
def triggerTime (s : KState) : Nat × Nat :=
  if s.data.getD 10 0 + 1 ≥ 60 then
    (if s.data.getD 11 0 + 1 ≥ 24 then 0 else s.data.getD 11 0 + 1, 0)
  else
    (if s.data.getD 11 0 ≥ 24 then 0 else s.data.getD 11 0, s.data.getD 10 0 + 1)

/-- The trigger temperature of `turn_on_smart`: Python truthiness makes a
caller-supplied 0 fall back to the current target temperature, exactly as
`temp_celsius if temp_celsius else (self._state_data[4] / 2.0)` does. -/
def smartTargetTemp (s : KState) (temp_celsius : Option PyNum) : PyNum :=
  match temp_celsius with
  | some t => if t.num = 0 then byteHalf (s.data.getD 4 0) else t
  | none => byteHalf (s.data.getD 4 0)

/-- The restore step of `turn_on_smart`, applied to the backed-up schedule
dictionary: re-enable with the original parameters when the backup was
enabled, otherwise disable (source defaults fill the unused arguments). -/
def smartRestore (backup : Option ScheduleInfo) (s1 : KState) :
    Except (String × KState × List (List Nat)) (KState × List (List Nat)) :=
  match backup with
  | some b =>
    if b.schedule_enabled then
      set_schedule s1 (if b.schedule_mode = "daily" then .daily else .once)
        (b.schedule_hour.getD 0) (b.schedule_minute.getD 0)
        (b.schedule_temperature.getD (PyNum.ofNat 85))
    else
      set_schedule s1 ScheduleMode.off 0 0 (PyNum.ofNat 85)
  | none => set_schedule s1 ScheduleMode.off 0 0 (PyNum.ofNat 85)

/-- The effect of `turn_on_smart(temp_celsius)` on the cached state, with the
list of physically written blobs in order: back up `get_schedule()`, write a
ONCE schedule at the device clock plus one minute, wait (the 65-second dwell
does not change the modelled state), then restore the backup. -/
def turn_on_smart (s : KState) (temp_celsius : Option PyNum) :
    Except (String × KState × List (List Nat)) (KState × List (List Nat)) :=
  let backup_sched := get_schedule s
  match set_schedule s ScheduleMode.once (triggerTime s).1 (triggerTime s).2
      (smartTargetTemp s temp_celsius) with
  | .error err => .error err
  | .ok (s1, ws1) =>
    match smartRestore backup_sched s1 with
    | .error err => .error (err.1, err.2.1, ws1 ++ err.2.2)
    | .ok (s2, ws2) => .ok (s2, ws1 ++ ws2)

/-- All bytes outside `targets` agree between the old and the new blob. -/
def framedOn (old new_blob : List Nat) (targets : List Nat) : Prop :=
  ∀ i : Nat, i ∉ targets → new_blob.getD i 0 = old.getD i 0

/-- A well-formed cached state: 17 bytes, every byte below 256, each defined
field inside its documented range, the altitude bytes carrying the `0x80`
marker and a stored multiple of 30 within `[0, 3000]`, and the schedule
sentinel values present while the schedule is disabled.  Byte 16 is
unconstrained beyond being a byte: the counter sweeps every value mod 256. -/
def ValidState (s : KState) : Prop :=
  s.data.length = 17 ∧
  (∀ b ∈ s.data, b < 256) ∧
  s.data.getD 4 0 ≤ 200 ∧
  s.data.getD 6 0 ≤ 200 ∧
  s.data.getD 8 0 ≤ 59 ∧ s.data.getD 9 0 ≤ 23 ∧
  s.data.getD 10 0 ≤ 59 ∧ s.data.getD 11 0 ≤ 23 ∧ s.data.getD 12 0 ≤ 2 ∧
  s.data.getD 13 0 ≤ 60 ∧ s.data.getD 14 0 ≤ 10 ∧ s.data.getD 15 0 ≤ 4 ∧
  128 ≤ s.data.getD 3 0 ∧
  (((s.data.getD 3 0 &&& 0x7F) <<< 8) ||| s.data.getD 2 0) ≤ 3000 ∧
  (((s.data.getD 3 0 &&& 0x7F) <<< 8) ||| s.data.getD 2 0) % 30 = 0 ∧
  (s.data.getD 0 0 &&& 0x08 = 0 →
    s.data.getD 6 0 = 0xC0 ∧ s.data.getD 8 0 = 0 ∧ s.data.getD 9 0 = 0)

/-- Claim C1 (amended), stated over a well-formed cached state `s`: every
setter derives the outgoing blob from the cached blob touching only its target
bytes (and the counter byte 16), bytes 5 and 7 always pass through, and
re-encoding every field with its currently decoded value reproduces every byte
except byte 16 — except that re-encoding an enabled schedule whose cached
byte 16 is 255 raises `ValueError` before any write (`(255 | 0x08) + 1 = 256`
overflows the bytearray cell) and reproduces nothing. -/
def C1Claim (s : KState) : Prop :=
  (∀ t, framedOn s.data (set_target_temperature s t).data [4, 16]) ∧
  (∀ u, framedOn s.data (set_units s u).data [1, 16] ∧
    (set_units s u).data.getD 1 0 &&& 0xFD = s.data.getD 1 0 &&& 0xFD) ∧
  (∀ m, framedOn s.data (set_clock_mode s m).data [12, 16]) ∧
  (∀ h m s', set_clock_time s h m none = .ok s' → framedOn s.data s'.data [10, 11, 16]) ∧
  (∀ h m cm s', set_clock_time s h m (some cm) = .ok s' →
    framedOn s.data s'.data [10, 11, 12, 16]) ∧
  (∀ v, framedOn s.data (set_chime_volume s v).data [14, 16]) ∧
  (∀ b, framedOn s.data (set_pre_boil s b).data [1, 16] ∧
    (set_pre_boil s b).data.getD 1 0 &&& 0xF7 = s.data.getD 1 0 &&& 0xF7) ∧
  (∀ m, framedOn s.data (set_hold_time s m).data [13, 16]) ∧
  (∀ a, framedOn s.data (set_altitude s a).data [2, 3, 16]) ∧
  (∀ l, framedOn s.data (set_language s l).data [15, 16]) ∧
  (∀ mode h m t s' ws, set_schedule s mode h m t = .ok (s', ws) →
    framedOn s.data s'.data [0, 6, 8, 9, 16] ∧
    ∀ w ∈ ws, framedOn s.data w [0, 6, 8, 9, 16]) ∧
  framedOn s.data (set_target_temperature s (byteHalf (s.data.getD 4 0))).data [16] ∧
  framedOn s.data
    (set_units s (if s.data.getD 1 0 &&& 0x02 = 0 then .fahrenheit else .celsius)).data [16] ∧
  (∀ m : ClockMode, m.val = s.data.getD 12 0 → framedOn s.data (set_clock_mode s m).data [16]) ∧
  (∃ s', set_clock_time s (s.data.getD 11 0) (s.data.getD 10 0) none = .ok s' ∧
    framedOn s.data s'.data [16]) ∧
  framedOn s.data (set_chime_volume s (s.data.getD 14 0)).data [16] ∧
  framedOn s.data (set_pre_boil s (s.data.getD 1 0 &&& 0x08 != 0)).data [16] ∧
  framedOn s.data (set_hold_time s (s.data.getD 13 0)).data [16] ∧
  framedOn s.data (set_altitude s ((get_altitude s).getD 0)).data [16] ∧
  (∀ l : Language, l.val = s.data.getD 15 0 → framedOn s.data (set_language s l).data [16]) ∧
  (s.data.getD 0 0 &&& 0x08 = 0 →
    ∃ s' ws, set_schedule s .off 0 0 (PyNum.ofNat 85) = .ok (s', ws) ∧
      framedOn s.data s'.data [16]) ∧
  (s.data.getD 0 0 &&& 0x08 ≠ 0 → s.data.getD 16 0 ≠ 255 →
    ∃ s' ws, set_schedule s
        (if (s.data.getD 16 0 >>> 3) &&& 1 = 1 then .once else .daily)
        (s.data.getD 9 0) (s.data.getD 8 0) (byteHalf (s.data.getD 6 0)) = .ok (s', ws) ∧
      framedOn s.data s'.data [16]) ∧
  (s.data.getD 0 0 &&& 0x08 ≠ 0 → s.data.getD 16 0 = 255 →
    set_schedule s
        (if (s.data.getD 16 0 >>> 3) &&& 1 = 1 then .once else .daily)
        (s.data.getD 9 0) (s.data.getD 8 0) (byteHalf (s.data.getD 6 0)) =
      .error ("byte must be in range(0, 256)", s, []))

/-- Claim C3, stated over a state whose counter is a byte: any sequence of `n`
consecutive `_write_state` calls leaves the counter at `(start + n) % 256`,
and every physical write issued by `set_schedule` (one, or both halves of the
two-phase mode change) stores `(counter so far + 1) % 256` in byte 16. -/
def C3Claim (s : KState) : Prop :=
  (∀ blobs : List (List Nat),
    (blobs.foldl write_state s).counter = (s.counter + blobs.length) % 256) ∧
  (∀ mode h m t s' ws, set_schedule s mode h m t = .ok (s', ws) →
    s'.counter = (s.counter + ws.length) % 256 ∧
    ∀ k, (hk : k < ws.length) →
      (ws.get ⟨k, hk⟩).getD 16 0 = (s.counter + k + 1) % 256)

/-- The schedule-off encoding, as a predicate on a written blob. -/
def isOffEncoding (w : List Nat) : Prop :=
  w.getD 0 0 &&& 0x08 = 0 ∧ w.getD 6 0 = 0xC0 ∧ w.getD 8 0 = 0 ∧ w.getD 9 0 = 0

/-- Claim C4 (amended), stated over the full outcome of a `set_schedule`
call: on success, two writes (the first a full off encoding) exactly when the
requested mode and the decoded current mode are distinct non-off modes, and
one write otherwise; when the call raises, either nothing was written (a
validation error, or the enable step overflowing byte 16 with no prior
disable), or — on a cross-mode change whose enable step overflows byte 16 —
exactly the one disable write, a full off encoding, went out before the
raise. -/
def C4Claim (s : KState) (mode : ScheduleMode)
    (res : Except (String × KState × List (List Nat)) (KState × List (List Nat))) : Prop :=
  (∀ s' ws, res = .ok (s', ws) →
    ((mode ≠ .off ∧ get_schedule_mode s ≠ some "off" ∧
        get_schedule_mode s ≠ some mode.pyName) →
      ws.length = 2 ∧ isOffEncoding (ws.getD 0 [])) ∧
    ((mode = .off ∨ get_schedule_mode s = some "off" ∨
        get_schedule_mode s = some mode.pyName) →
      ws.length = 1)) ∧
  (∀ e s' ws, res = .error (e, s', ws) →
    ws = [] ∨
    ((mode ≠ .off ∧ get_schedule_mode s ≠ some "off" ∧
        get_schedule_mode s ≠ some mode.pyName) ∧
      ws.length = 1 ∧ isOffEncoding (ws.getD 0 [])))

/-- Claim C6 (amended): given a successful `turn_on_smart`, the write that
enables the trigger schedule (the second write if a mode change forced a
disable first) carries the device clock plus one minute with rollover, the
enable bit, and the doubled clamped trigger temperature, which is the
caller-supplied value when it is given and nonzero and the cached target
temperature otherwise. -/
def C6Claim (s : KState) (temp_celsius : Option PyNum) (ws : List (List Nat)) : Prop :=
  let d := s.data
  let w := ws.getD (if get_schedule_mode s = some "daily" then 1 else 0) []
  w.getD 8 0 = (d.getD 10 0 + 1) % 60 ∧
  w.getD 9 0 = (if d.getD 10 0 = 59 then (d.getD 11 0 + 1) % 24 else d.getD 11 0) ∧
  w.getD 6 0 = (pyTrunc (clampTemp (smartTargetTemp s temp_celsius)).mul2).toNat ∧
  w.getD 0 0 &&& 0x08 ≠ 0

/-- Claim C7: `set_schedule(OFF)` issues exactly one physical write, a full
off encoding, whatever the prior mode was. -/
def C7Claim (s : KState) (hour minute : Int) (t : PyNum) : Prop :=
  ∃ s' w, set_schedule s .off hour minute t = .ok (s', [w]) ∧ isOffEncoding w ∧
    s'.data = w

/-- Claim C8: the altitude write clamps to `[0, 3000]`, quantizes to the
nearest multiple of 30, and encodes the quantized value over bytes 2 and 3
with the `0x80` marker; every altitude read back is a multiple of 30. -/
def C8Claim (s : KState) (altitude_meters : Int) : Prop :=
  let q := pyRound30 (max 0 (min 3000 altitude_meters)).toNat * 30
  (set_altitude s altitude_meters).data.getD 2 0 = q &&& 0xFF ∧
  (set_altitude s altitude_meters).data.getD 3 0 = 0x80 ||| ((q >>> 8) &&& 0x7F) ∧
  q % 30 = 0 ∧ q ≤ 3000 ∧
  q ≤ (max 0 (min 3000 altitude_meters)).toNat + 15 ∧
  (max 0 (min 3000 altitude_meters)).toNat ≤ q + 15 ∧
  get_altitude (set_altitude s 100) = some 90 ∧
  (∀ s0 : KState, ∀ v ∈ get_altitude s0, v % 30 = 0)

/-- Claim C9 (amended): hour and minute bounds are validated before any write
and surface as an error, while out-of-range temperature, chime volume and hold
time are clamped into range and written. -/
def C9Claim : Prop :=
  (∀ s h m mo, ¬(0 ≤ h ∧ h ≤ 23) → set_clock_time s h m mo = .error "Hours must be between 0 and 23") ∧
  (∀ s h m mo, (0 ≤ h ∧ h ≤ 23) → ¬(0 ≤ m ∧ m ≤ 59) →
    set_clock_time s h m mo = .error "Minutes must be between 0 and 59") ∧
  (∀ s mode h m t, mode ≠ ScheduleMode.off → ¬(0 ≤ h ∧ h ≤ 23) →
    set_schedule s mode h m t = .error ("Hour must be between 0 and 23", s, [])) ∧
  (∀ s mode h m t, mode ≠ ScheduleMode.off → (0 ≤ h ∧ h ≤ 23) → ¬(0 ≤ m ∧ m ≤ 59) →
    set_schedule s mode h m t = .error ("Minutes must be between 0 and 59", s, [])) ∧
  (∀ s v, 16 < s.data.length →
    (set_chime_volume s v).data.getD 14 0 = (max 0 (min 10 v)).toNat ∧
    (max 0 (min 10 v)).toNat ≤ 10) ∧
  (∀ s t, 16 < s.data.length → 0 < t.den →
    (set_target_temperature s t).data.getD 4 0 ≤ 200)

/-- Claim C10: `_write_state` overwrites the whole of byte 16 with the bare
incremented counter, so whatever a caller stored there beforehand is
discarded, and both the written byte 16 and the new counter equal
`(counter + 1) % 256`. -/
def C10Claim (s : KState) (new_data : List Nat) : Prop :=
  (∀ v, write_state s (new_data.set 16 v) = write_state s new_data) ∧
  (write_state s new_data).data.getD 16 0 = (s.counter + 1) % 256 ∧
  (write_state s new_data).counter = (s.counter + 1) % 256

/-- A well-formed cached state with the schedule enabled in DAILY mode at
07:00, 85 °C, clock 12:00, counter 5. -/
def kettleA : KState := ⟨[0x08, 0x02, 90, 0x80, 170, 3, 170, 7, 0, 7, 0, 12, 1, 0, 5, 0, 5], 5⟩

/-- A well-formed cached state with the schedule disabled, clock 23:59,
counter 7. -/
def kettleB : KState := ⟨[0, 2, 90, 128, 170, 3, 192, 7, 0, 0, 59, 23, 2, 15, 10, 4, 7], 7⟩

/-- Like `kettleB` but with counter 0. -/
def kettleC : KState := ⟨[0, 2, 90, 128, 170, 3, 192, 7, 0, 0, 59, 23, 2, 15, 10, 4, 0], 0⟩

/-- Like `kettleA` but with counter and byte 16 equal to 255; bit 3 of byte 16
is set, so the cached schedule decodes as ONCE. -/
def kettleD : KState := ⟨[0x08, 0x02, 90, 0x80, 170, 3, 170, 7, 0, 7, 0, 12, 1, 0, 5, 0, 255], 255⟩

/-- Like `kettleA` but with counter and byte 16 equal to 246; bit 3 of byte 16
is clear, so the cached schedule decodes as DAILY. -/
def kettleE : KState := ⟨[0x08, 0x02, 90, 0x80, 170, 3, 170, 7, 0, 7, 0, 12, 1, 0, 5, 0, 246], 246⟩

theorem getD_set_ne (l : List Nat) (v d : Nat) :
    ∀ i j, i ≠ j → (l.set i v).getD j d = l.getD j d := by
  induction l with
  | nil => intro i j _; simp
  | cons a t ih =>
    intro i j hij
    cases i with
    | zero =>
      cases j with
      | zero => exact absurd rfl hij
      | succ j => simp [List.getD_cons_succ]
    | succ i =>
      cases j with
      | zero => simp [List.getD_cons_zero]
      | succ j => simpa [List.getD_cons_succ] using ih i j (by omega)

theorem getD_set_eq (l : List Nat) (v d : Nat) :
    ∀ i, i < l.length → (l.set i v).getD i d = v := by
  induction l with
  | nil => intro i h; simp at h
  | cons a t ih =>
    intro i h
    cases i with
    | zero => simp
    | succ i => simpa [List.getD_cons_succ] using ih i (by simpa using h)

theorem set_getD_self (l : List Nat) :
    ∀ i, i < l.length → l.set i (l.getD i 0) = l := by
  induction l with
  | nil => intro i h; simp at h
  | cons a t ih =>
    intro i h
    cases i with
    | zero => simp
    | succ i => simpa [List.getD_cons_succ] using ih i (by simpa using h)

theorem getD_append_left {α : Type} (l1 l2 : List α) (d : α) :
    ∀ i, i < l1.length → (l1 ++ l2).getD i d = l1.getD i d := by
  induction l1 with
  | nil => intro i h; simp at h
  | cons a t ih =>
    intro i h
    cases i with
    | zero => simp
    | succ i => simpa [List.getD_cons_succ] using ih i (by simpa using h)

theorem byteFactsFin : ∀ b : Fin 256,
    (b.val &&& 2 ≠ 0 → b.val ||| 2 = b.val) ∧ (b.val &&& 2 = 0 → b.val &&& 0xFD = b.val) ∧
    (b.val &&& 8 ≠ 0 → b.val ||| 8 = b.val) ∧ (b.val &&& 8 = 0 → b.val &&& 0xF7 = b.val) ∧
    ((b.val ||| 2) &&& 0xFD = b.val &&& 0xFD) ∧ ((b.val &&& 0xFD) &&& 0xFD = b.val &&& 0xFD) ∧
    ((b.val ||| 8) &&& 0xF7 = b.val &&& 0xF7) ∧ ((b.val &&& 0xF7) &&& 0xF7 = b.val &&& 0xF7) ∧
    ((b.val &&& 0xF7) &&& 8 = 0) ∧ ((b.val ||| 8) &&& 8 ≠ 0) ∧
    (b.val ≠ 247 → b.val ≠ 255 → (b.val ||| 8) + 1 ≤ 255) ∧ ((b.val &&& 0xF7) + 1 ≤ 255) ∧
    (128 ≤ b.val → 128 + (b.val &&& 0x7F) = b.val) ∧ (b.val &&& 0x7F < 128) ∧
    (b.val &&& 0xF7 < 256) ∧ (b.val ||| 2 < 256) ∧ (b.val ||| 8 < 256) ∧
    (b.val &&& 0xFD < 256) ∧ (b.val < 128 → 128 + b.val = 128 ||| b.val) ∧
    ((b.val &&& 0x7F) &&& 0x7F = b.val &&& 0x7F) := by
  decide

theorem byteFacts (b : Nat) (hb : b < 256) :
    (b &&& 2 ≠ 0 → b ||| 2 = b) ∧ (b &&& 2 = 0 → b &&& 0xFD = b) ∧
    (b &&& 8 ≠ 0 → b ||| 8 = b) ∧ (b &&& 8 = 0 → b &&& 0xF7 = b) ∧
    ((b ||| 2) &&& 0xFD = b &&& 0xFD) ∧ ((b &&& 0xFD) &&& 0xFD = b &&& 0xFD) ∧
    ((b ||| 8) &&& 0xF7 = b &&& 0xF7) ∧ ((b &&& 0xF7) &&& 0xF7 = b &&& 0xF7) ∧
    ((b &&& 0xF7) &&& 8 = 0) ∧ ((b ||| 8) &&& 8 ≠ 0) ∧
    (b ≠ 247 → b ≠ 255 → (b ||| 8) + 1 ≤ 255) ∧ ((b &&& 0xF7) + 1 ≤ 255) ∧
    (128 ≤ b → 128 + (b &&& 0x7F) = b) ∧ (b &&& 0x7F < 128) ∧
    (b &&& 0xF7 < 256) ∧ (b ||| 2 < 256) ∧ (b ||| 8 < 256) ∧ (b &&& 0xFD < 256) ∧
    (b < 128 → 128 + b = 128 ||| b) ∧ ((b &&& 0x7F) &&& 0x7F = b &&& 0x7F) :=
  byteFactsFin ⟨b, hb⟩

set_option maxHeartbeats 4000000 in
theorem altBitsFin : ∀ x : Fin 128, ∀ y : Fin 256,
    (((x.val <<< 8) ||| y.val) &&& 255 = y.val) ∧
    (((x.val <<< 8) ||| y.val) >>> 8 = x.val) ∧
    (((x.val <<< 8) ||| y.val) < 32768) := by
  decide

theorem alt_bits (x y : Nat) (hx : x < 128) (hy : y < 256) :
    (((x <<< 8) ||| y) &&& 255 = y) ∧ (((x <<< 8) ||| y) >>> 8 = x) ∧
    (((x <<< 8) ||| y) < 32768) :=
  altBitsFin ⟨x, hx⟩ ⟨y, hy⟩

theorem write_state_data (s : KState) (nd : List Nat) :
    (write_state s nd).data = nd.set 16 ((s.counter + 1) % 256) := rfl

theorem write_state_counter (s : KState) (nd : List Nat) :
    (write_state s nd).counter = (s.counter + 1) % 256 := rfl

theorem write_state_getD_16 (s : KState) (nd : List Nat) (hlen : 16 < nd.length) :
    (write_state s nd).data.getD 16 0 = (s.counter + 1) % 256 := by
  rw [write_state_data]
  exact getD_set_eq _ _ _ 16 (by simpa using hlen)

theorem foldl_write_state_counter (blobs : List (List Nat)) :
    ∀ s : KState, s.counter < 256 →
      (blobs.foldl write_state s).counter = (s.counter + blobs.length) % 256 := by
  induction blobs with
  | nil => intro s hc; simp [Nat.mod_eq_of_lt hc]
  | cons b bs ih =>
    intro s hc
    simp only [List.foldl_cons, List.length_cons]
    rw [ih (write_state s b) (Nat.mod_lt _ (by norm_num))]
    show ((s.counter + 1) % 256 + bs.length) % 256 = (s.counter + (bs.length + 1)) % 256
    omega

/-- C10: after every successful physical write, byte 16 of the cached blob is
exactly `(previous counter + 1) % 256`; `_write_state` overwrites the whole of
byte 16 with the bare counter value, so any bits a caller placed there first
(such as the schedule-mode bit set or cleared by `set_schedule`) are
discarded. -/
theorem C10_write_counter_overwrite (s : KState) (new_data : List Nat)
    (hlen : new_data.length = 17) : C10Claim s new_data := by
  unfold C10Claim
  refine ⟨fun v => ?_, ?_, rfl⟩
  · simp [write_state, List.set_set]
  · exact write_state_getD_16 s new_data (by omega)

theorem C10_witness : kettleB.data.length = 17 ∧ C10Claim kettleA kettleB.data :=
  ⟨by decide, C10_write_counter_overwrite kettleA kettleB.data (by decide)⟩

theorem schedEnablePhase_ok_elim (s1 : KState) (mode : ScheduleMode) (h m : Int)
    (t : PyNum) (s' : KState) (ws : List (List Nat))
    (hok : schedEnablePhase s1 mode h m t = .ok (s', ws)) :
    s' = write_state s1 ((enableBlob s1 h m t).set 16
      (enableByte16 (enableBlob s1 h m t) mode)) ∧ ws = [s'.data] := by
  simp only [schedEnablePhase] at hok
  by_cases hv : enableByte16 (enableBlob s1 h m t) mode ≤ 255
  · rw [if_pos hv] at hok
    have hp := Except.ok.inj hok
    rw [Prod.mk.injEq] at hp
    obtain ⟨hs, hw⟩ := hp
    subst hs
    subst hw
    exact ⟨rfl, rfl⟩
  · rw [if_neg hv] at hok
    exact absurd hok (by simp)

theorem schedTwoPhase_ok_elim (s : KState) (mode : ScheduleMode) (h m : Int)
    (t : PyNum) (s' : KState) (ws : List (List Nat))
    (hok : schedTwoPhase s mode h m t = .ok (s', ws)) :
    s' = write_state (disabledFirst s) ((enableBlob (disabledFirst s) h m t).set 16
      (enableByte16 (enableBlob (disabledFirst s) h m t) mode)) ∧
    ws = [(disabledFirst s).data, s'.data] := by
  simp only [schedTwoPhase] at hok
  cases heq : schedEnablePhase (disabledFirst s) mode h m t with
  | error e => rw [heq] at hok; exact absurd hok (by simp)
  | ok p =>
    rw [heq] at hok
    obtain ⟨p1, p2⟩ := p
    simp only at hok
    have hp := Except.ok.inj hok
    rw [Prod.mk.injEq] at hp
    obtain ⟨hs, hw⟩ := hp
    obtain ⟨he1, he2⟩ := schedEnablePhase_ok_elim (disabledFirst s) mode h m t p1 p2 heq
    subst hs
    subst hw
    subst he2
    exact ⟨he1, rfl⟩

theorem set_schedule_ok_cases (s : KState) (mode : ScheduleMode) (h m : Int)
    (t : PyNum) (s' : KState) (ws : List (List Nat))
    (hok : set_schedule s mode h m t = .ok (s', ws)) :
    (mode = ScheduleMode.off ∧ s' = write_state s (scheduleOffBlob s.data) ∧
      ws = [s'.data]) ∨
    (mode ≠ ScheduleMode.off ∧ (0 ≤ h ∧ h ≤ 23) ∧ (0 ≤ m ∧ m ≤ 59) ∧
      needsDisable s mode = true ∧
      s' = write_state (disabledFirst s) ((enableBlob (disabledFirst s) h m t).set 16
        (enableByte16 (enableBlob (disabledFirst s) h m t) mode)) ∧
      ws = [(disabledFirst s).data, s'.data]) ∨
    (mode ≠ ScheduleMode.off ∧ (0 ≤ h ∧ h ≤ 23) ∧ (0 ≤ m ∧ m ≤ 59) ∧
      needsDisable s mode = false ∧
      s' = write_state s ((enableBlob s h m t).set 16
        (enableByte16 (enableBlob s h m t) mode)) ∧
      ws = [s'.data]) := by
  simp only [set_schedule] at hok
  by_cases hoff : mode = ScheduleMode.off
  · rw [if_pos hoff] at hok
    have hp := Except.ok.inj hok
    rw [Prod.mk.injEq] at hp
    obtain ⟨hs, hw⟩ := hp
    subst hs
    subst hw
    exact Or.inl ⟨hoff, rfl, rfl⟩
  · rw [if_neg hoff] at hok
    by_cases hh : 0 ≤ h ∧ h ≤ 23
    · rw [if_neg (not_not_intro hh)] at hok
      by_cases hm2 : 0 ≤ m ∧ m ≤ 59
      · rw [if_neg (not_not_intro hm2)] at hok
        by_cases hnd : needsDisable s mode = true
        · rw [if_pos hnd] at hok
          obtain ⟨he1, he2⟩ := schedTwoPhase_ok_elim s mode h m t s' ws hok
          exact Or.inr (Or.inl ⟨hoff, hh, hm2, hnd, he1, he2⟩)
        · rw [if_neg hnd] at hok
          obtain ⟨he1, he2⟩ := schedEnablePhase_ok_elim s mode h m t s' ws hok
          exact Or.inr (Or.inr ⟨hoff, hh, hm2, Bool.not_eq_true _ ▸ hnd, he1, he2⟩)
      · rw [if_pos hm2] at hok
        exact absurd hok (by simp)
    · rw [if_pos hh] at hok
      exact absurd hok (by simp)

theorem schedEnablePhase_error_elim (s1 : KState) (mode : ScheduleMode) (h m : Int)
    (t : PyNum) (e : String) (s' : KState) (ws : List (List Nat))
    (herr : schedEnablePhase s1 mode h m t = .error (e, s', ws)) :
    e = "byte must be in range(0, 256)" ∧ s' = s1 ∧ ws = [] := by
  simp only [schedEnablePhase] at herr
  by_cases hv : enableByte16 (enableBlob s1 h m t) mode ≤ 255
  · rw [if_pos hv] at herr
    exact absurd herr (by simp)
  · rw [if_neg hv] at herr
    rw [Except.error.injEq, Prod.mk.injEq, Prod.mk.injEq] at herr
    exact ⟨herr.1.symm, herr.2.1.symm, herr.2.2.symm⟩

theorem set_schedule_error_cases (s : KState) (mode : ScheduleMode) (h m : Int)
    (t : PyNum) (e : String) (s' : KState) (ws : List (List Nat))
    (herr : set_schedule s mode h m t = .error (e, s', ws)) :
    ws = [] ∨
    (mode ≠ ScheduleMode.off ∧ needsDisable s mode = true ∧
      ws = [(disabledFirst s).data]) := by
  simp only [set_schedule] at herr
  by_cases hoff : mode = ScheduleMode.off
  · rw [if_pos hoff] at herr
    exact absurd herr (by simp)
  · rw [if_neg hoff] at herr
    by_cases hh : 0 ≤ h ∧ h ≤ 23
    · rw [if_neg (not_not_intro hh)] at herr
      by_cases hm2 : 0 ≤ m ∧ m ≤ 59
      · rw [if_neg (not_not_intro hm2)] at herr
        by_cases hnd : needsDisable s mode = true
        · rw [if_pos hnd] at herr
          simp only [schedTwoPhase] at herr
          cases heq : schedEnablePhase (disabledFirst s) mode h m t with
          | ok p =>
            rw [heq] at herr
            obtain ⟨p1, p2⟩ := p
            simp only at herr
            exact absurd herr (by simp)
          | error err =>
            rw [heq] at herr
            obtain ⟨e1, s1e, wse⟩ := err
            simp only at herr
            obtain ⟨_, _, hwe⟩ :=
              schedEnablePhase_error_elim (disabledFirst s) mode h m t e1 s1e wse heq
            rw [Except.error.injEq, Prod.mk.injEq, Prod.mk.injEq] at herr
            refine Or.inr ⟨hoff, hnd, ?_⟩
            rw [← herr.2.2, hwe]
        · rw [if_neg hnd] at herr
          obtain ⟨_, _, hwe⟩ := schedEnablePhase_error_elim s mode h m t e s' ws herr
          exact Or.inl hwe
      · rw [if_pos hm2] at herr
        rw [Except.error.injEq, Prod.mk.injEq, Prod.mk.injEq] at herr
        exact Or.inl herr.2.2.symm
    · rw [if_pos hh] at herr
      rw [Except.error.injEq, Prod.mk.injEq, Prod.mk.injEq] at herr
      exact Or.inl herr.2.2.symm

theorem disabledFirst_counter (s : KState) :
    (disabledFirst s).counter = (s.counter + 1) % 256 := rfl

theorem disabledFirst_data_getD_16 (s : KState) (hlen : s.data.length = 17) :
    (disabledFirst s).data.getD 16 0 = (s.counter + 1) % 256 :=
  write_state_getD_16 s _ (by simp [scheduleOffBlob, hlen])

theorem disabledFirst_length (s : KState) (hlen : s.data.length = 17) :
    (disabledFirst s).data.length = 17 := by
  simp [disabledFirst, write_state, scheduleOffBlob, hlen]

theorem enableBlob_length (s1 : KState) (h m : Int) (t : PyNum) :
    (enableBlob s1 h m t).length = s1.data.length := by
  simp [enableBlob]

/-- C3: a run of `n` consecutive successful physical writes advances the
revision counter by exactly `n` mod 256, and each single physical write
issued by `set_schedule` — including both writes of a two-phase schedule mode
change — stores `(current counter + 1) % 256` in byte 16 of the written
blob. -/
theorem C3_revision_counter (s : KState) (hc : s.counter < 256)
    (hlen : s.data.length = 17) : C3Claim s := by
  unfold C3Claim
  constructor
  · intro blobs
    exact foldl_write_state_counter blobs s hc
  · intro mode h m t s' ws hok
    rcases set_schedule_ok_cases s mode h m t s' ws hok with
      ⟨_, hs, hw⟩ | ⟨_, _, _, _, hs, hw⟩ | ⟨_, _, _, _, hs, hw⟩
    · subst hs
      subst hw
      refine ⟨by simp [write_state_counter, Nat.mod_eq_of_lt hc], ?_⟩
      intro k hk
      simp only [List.length_cons, List.length_nil] at hk
      have hk0 : k = 0 := by omega
      subst hk0
      show (write_state s (scheduleOffBlob s.data)).data.getD 16 0 = (s.counter + 0 + 1) % 256
      rw [write_state_getD_16 s _ (by simp [scheduleOffBlob, hlen])]
    · subst hs
      subst hw
      constructor
      · simp only [write_state_counter, disabledFirst_counter, List.length_cons,
          List.length_nil]
        omega
      · intro k hk
        simp only [List.length_cons, List.length_nil] at hk
        match k, hk with
        | 0, _ =>
          show (disabledFirst s).data.getD 16 0 = (s.counter + 0 + 1) % 256
          rw [disabledFirst_data_getD_16 s hlen]
        | 1, _ =>
          show (write_state (disabledFirst s) _).data.getD 16 0 = (s.counter + 1 + 1) % 256
          rw [write_state_getD_16 _ _
            (by simp [enableBlob_length, disabledFirst_length s hlen])]
          rw [disabledFirst_counter]
          omega
    · subst hs
      subst hw
      refine ⟨by simp [write_state_counter, Nat.mod_eq_of_lt hc], ?_⟩
      intro k hk
      simp only [List.length_cons, List.length_nil] at hk
      have hk0 : k = 0 := by omega
      subst hk0
      show (write_state s _).data.getD 16 0 = (s.counter + 0 + 1) % 256
      rw [write_state_getD_16 s _ (by simp [enableBlob_length, hlen])]

theorem C3_witness : (kettleA.counter < 256 ∧ kettleA.data.length = 17) ∧ C3Claim kettleA :=
  ⟨by decide, C3_revision_counter kettleA (by decide) (by decide)⟩

theorem getD_lt_256 (l : List Nat) (hb : ∀ b ∈ l, b < 256) : ∀ i, l.getD i 0 < 256 := by
  induction l with
  | nil => intro i; cases i <;> simp
  | cons a t ih =>
    intro i
    cases i with
    | zero => simpa using hb a (by simp)
    | succ i =>
      simpa [List.getD_cons_succ] using ih (fun b hb2 => hb b (by simp [hb2])) i

theorem offWrite_getD (d : List Nat) (hlen : d.length = 17) (c : Nat) :
    ((scheduleOffBlob d).set 16 c).getD 0 0 = d.getD 0 0 &&& 0xF7 ∧
    ((scheduleOffBlob d).set 16 c).getD 6 0 = 0xC0 ∧
    ((scheduleOffBlob d).set 16 c).getD 8 0 = 0 ∧
    ((scheduleOffBlob d).set 16 c).getD 9 0 = 0 ∧
    ((scheduleOffBlob d).set 16 c).getD 16 0 = c ∧
    (∀ i, i ≠ 0 → i ≠ 6 → i ≠ 8 → i ≠ 9 → i ≠ 16 →
      ((scheduleOffBlob d).set 16 c).getD i 0 = d.getD i 0) := by
  unfold scheduleOffBlob
  refine ⟨?_, ?_, ?_, ?_, ?_, ?_⟩
  · rw [getD_set_ne _ _ _ 16 0 (by omega), getD_set_ne _ _ _ 9 0 (by omega),
      getD_set_ne _ _ _ 8 0 (by omega), getD_set_ne _ _ _ 6 0 (by omega),
      getD_set_eq _ _ _ 0 (by omega)]
  · rw [getD_set_ne _ _ _ 16 6 (by omega), getD_set_ne _ _ _ 9 6 (by omega),
      getD_set_ne _ _ _ 8 6 (by omega), getD_set_eq _ _ _ 6 (by simp [hlen])]
  · rw [getD_set_ne _ _ _ 16 8 (by omega), getD_set_ne _ _ _ 9 8 (by omega),
      getD_set_eq _ _ _ 8 (by simp [hlen])]
  · rw [getD_set_ne _ _ _ 16 9 (by omega), getD_set_eq _ _ _ 9 (by simp [hlen])]
  · rw [getD_set_eq _ _ _ 16 (by simp [hlen])]
  · intro i h0 h6 h8 h9 h16
    rw [getD_set_ne _ _ _ 16 i (Ne.symm h16), getD_set_ne _ _ _ 9 i (Ne.symm h9),
      getD_set_ne _ _ _ 8 i (Ne.symm h8), getD_set_ne _ _ _ 6 i (Ne.symm h6),
      getD_set_ne _ _ _ 0 i (Ne.symm h0)]

theorem enableWrite_getD (s1 : KState) (h m : Int) (t : PyNum) (v : Nat)
    (hlen : s1.data.length = 17) :
    ((enableBlob s1 h m t).set 16 v).getD 0 0 = s1.data.getD 0 0 ||| 0x08 ∧
    ((enableBlob s1 h m t).set 16 v).getD 6 0 = (pyTrunc (clampTemp t).mul2).toNat ∧
    ((enableBlob s1 h m t).set 16 v).getD 8 0 = m.toNat ∧
    ((enableBlob s1 h m t).set 16 v).getD 9 0 = h.toNat ∧
    ((enableBlob s1 h m t).set 16 v).getD 16 0 = v ∧
    (∀ i, i ≠ 0 → i ≠ 6 → i ≠ 8 → i ≠ 9 → i ≠ 16 →
      ((enableBlob s1 h m t).set 16 v).getD i 0 = s1.data.getD i 0) := by
  unfold enableBlob
  refine ⟨?_, ?_, ?_, ?_, ?_, ?_⟩
  · rw [getD_set_ne _ _ _ 16 0 (by omega), getD_set_ne _ _ _ 9 0 (by omega),
      getD_set_ne _ _ _ 8 0 (by omega), getD_set_ne _ _ _ 6 0 (by omega),
      getD_set_eq _ _ _ 0 (by omega)]
  · rw [getD_set_ne _ _ _ 16 6 (by omega), getD_set_ne _ _ _ 9 6 (by omega),
      getD_set_ne _ _ _ 8 6 (by omega), getD_set_eq _ _ _ 6 (by simp [hlen])]
  · rw [getD_set_ne _ _ _ 16 8 (by omega), getD_set_ne _ _ _ 9 8 (by omega),
      getD_set_eq _ _ _ 8 (by simp [hlen])]
  · rw [getD_set_ne _ _ _ 16 9 (by omega), getD_set_eq _ _ _ 9 (by simp [hlen])]
  · rw [getD_set_eq _ _ _ 16 (by simp [hlen])]
  · intro i h0 h6 h8 h9 h16
    rw [getD_set_ne _ _ _ 16 i (Ne.symm h16), getD_set_ne _ _ _ 9 i (Ne.symm h9),
      getD_set_ne _ _ _ 8 i (Ne.symm h8), getD_set_ne _ _ _ 6 i (Ne.symm h6),
      getD_set_ne _ _ _ 0 i (Ne.symm h0)]

theorem get_schedule_mode_cases (s : KState) (hlen : s.data.length = 17) :
    get_schedule_mode s = some "off" ∨ get_schedule_mode s = some "once" ∨
    get_schedule_mode s = some "daily" := by
  unfold get_schedule_mode
  rw [if_neg (by omega)]
  by_cases he : s.data.getD 0 0 &&& 0x08 = 0
  · rw [if_pos he]; exact Or.inl rfl
  · rw [if_neg he]
    by_cases hb3 : (s.data.getD 16 0 >>> 3) &&& 1 = 1
    · rw [if_pos hb3]; exact Or.inr (Or.inl rfl)
    · rw [if_neg hb3]; exact Or.inr (Or.inr rfl)

theorem needsDisable_iff (s : KState) (mode : ScheduleMode) (hlen : s.data.length = 17) :
    needsDisable s mode = true ↔
      (get_schedule_mode s ≠ some "off" ∧ get_schedule_mode s ≠ some mode.pyName) := by
  unfold needsDisable
  rw [decide_eq_true_eq]
  constructor
  · rintro ⟨h1 | h1, h2⟩
    · exact ⟨by rw [h1]; simp, h2⟩
    · exact ⟨by rw [h1]; simp, h2⟩
  · rintro ⟨h1, h2⟩
    refine ⟨?_, h2⟩
    rcases get_schedule_mode_cases s hlen with hc | hc | hc
    · exact absurd hc h1
    · exact Or.inl hc
    · exact Or.inr hc

/-- C7: for every cached blob and every prior schedule mode, `set_schedule(OFF)`
issues a single physical write whose blob has bit 3 of byte 0 cleared, byte 6
equal to `0xC0`, and bytes 8 and 9 zero. -/
theorem C7_schedule_off (s : KState) (hlen : s.data.length = 17)
    (hb : ∀ b ∈ s.data, b < 256) (hour minute : Int) (t : PyNum) :
    C7Claim s hour minute t := by
  unfold C7Claim
  refine ⟨write_state s (scheduleOffBlob s.data),
    (write_state s (scheduleOffBlob s.data)).data, rfl, ?_, rfl⟩
  obtain ⟨e0, e6, e8, e9, _, _⟩ := offWrite_getD s.data hlen ((s.counter + 1) % 256)
  unfold isOffEncoding
  rw [write_state_data]
  refine ⟨?_, e6, e8, e9⟩
  rw [e0]
  exact (byteFacts _ (getD_lt_256 s.data hb 0)).2.2.2.2.2.2.2.2.1

theorem C7_witness :
    (kettleA.data.length = 17 ∧ (∀ b ∈ kettleA.data, b < 256)) ∧
      C7Claim kettleA 3 4 (PyNum.ofNat 85) :=
  ⟨by decide, C7_schedule_off kettleA (by decide) (by decide) 3 4 (PyNum.ofNat 85)⟩

/-- C4 counterexample to the original write-count claim, at in-range
arguments and well-formed cached blobs.  First: at a cached DAILY schedule
with counter and byte 16 equal to 246, the cross-mode call
`set_schedule(ONCE, 12, 1, 85)` issues the disable write (advancing the
counter and cached byte 16 to 247), then raises `ValueError` at the enable
step (`(247 | 0x08) + 1 = 256`): one physical write went out, not the claimed
two, and the kettle is left disabled.  Second: at a cached ONCE schedule with
byte 16 equal to 255, the same-mode call `set_schedule(ONCE, 5, 30, 90)`
raises before any write (`(255 | 0x08) + 1 = 256`): zero physical writes, not
the claimed one. -/
theorem C4_overflow_counterexample :
    (get_schedule_mode kettleE = some "daily" ∧
      set_schedule kettleE .once 12 1 (PyNum.ofNat 85) =
        .error ("byte must be in range(0, 256)",
          ⟨[0, 2, 90, 128, 170, 3, 192, 7, 0, 0, 0, 12, 1, 0, 5, 0, 247], 247⟩,
          [[0, 2, 90, 128, 170, 3, 192, 7, 0, 0, 0, 12, 1, 0, 5, 0, 247]])) ∧
    (get_schedule_mode kettleD = some "once" ∧
      set_schedule kettleD .once 5 30 (PyNum.ofNat 90) =
        .error ("byte must be in range(0, 256)", kettleD, [])) :=
  ⟨⟨rfl, by rfl⟩, rfl, by rfl⟩

/-- C4 (amended): on success, `set_schedule` issues exactly two physical
writes — first a full off encoding, then the enable write — precisely when
the requested mode and the device mode decoded from the cached blob are
distinct non-off modes, and exactly one physical write in every other
successful case; when the call raises, either no write was issued at all, or
— only on such a cross-mode change, when the enable step overflows byte 16 —
exactly the one disable write, a full off encoding, was issued before the
raise. -/
theorem C4_two_phase_mode_change (s : KState) (mode : ScheduleMode) (h m : Int)
    (t : PyNum) (hlen : s.data.length = 17) (hb : ∀ b ∈ s.data, b < 256) :
    C4Claim s mode (set_schedule s mode h m t) := by
  unfold C4Claim
  constructor
  · intro s' ws hok
    rcases set_schedule_ok_cases s mode h m t s' ws hok with
      ⟨hoff, hs, hw⟩ | ⟨hmode, _, _, hnd, hs, hw⟩ | ⟨hmode, _, _, hnd, hs, hw⟩
    · constructor
      · rintro ⟨h1, _, _⟩; exact absurd hoff h1
      · intro _; rw [hw]; rfl
    · constructor
      · intro _
        refine ⟨by rw [hw]; rfl, ?_⟩
        rw [hw]
        show isOffEncoding (disabledFirst s).data
        unfold disabledFirst
        rw [write_state_data, List.set_set]
        obtain ⟨e0, e6, e8, e9, _, _⟩ := offWrite_getD s.data hlen ((s.counter + 1) % 256)
        exact ⟨by rw [e0]; exact (byteFacts _ (getD_lt_256 s.data hb 0)).2.2.2.2.2.2.2.2.1,
          e6, e8, e9⟩
      · rintro (h1 | h1 | h1)
        · exact absurd h1 hmode
        · exact absurd h1 ((needsDisable_iff s mode hlen).mp hnd).1
        · exact absurd h1 ((needsDisable_iff s mode hlen).mp hnd).2
    · constructor
      · rintro ⟨h1, h2, h3⟩
        exact absurd ((needsDisable_iff s mode hlen).mpr ⟨h2, h3⟩) (by simp [hnd])
      · intro _; rw [hw]; rfl
  · intro e s' ws herr
    rcases set_schedule_error_cases s mode h m t e s' ws herr with hw | ⟨hmode, hnd, hw⟩
    · exact Or.inl hw
    · obtain ⟨hne1, hne2⟩ := (needsDisable_iff s mode hlen).mp hnd
      refine Or.inr ⟨⟨hmode, hne1, hne2⟩, by rw [hw]; rfl, ?_⟩
      rw [hw]
      show isOffEncoding (disabledFirst s).data
      unfold disabledFirst
      rw [write_state_data, List.set_set]
      obtain ⟨e0, e6, e8, e9, _, _⟩ := offWrite_getD s.data hlen ((s.counter + 1) % 256)
      exact ⟨by rw [e0]; exact (byteFacts _ (getD_lt_256 s.data hb 0)).2.2.2.2.2.2.2.2.1,
        e6, e8, e9⟩

theorem C4_witness :
    (kettleA.data.length = 17 ∧ (∀ b ∈ kettleA.data, b < 256)) ∧
    C4Claim kettleA .once (set_schedule kettleA .once 12 1 (PyNum.ofNat 85)) :=
  ⟨⟨by decide, by decide⟩,
    C4_two_phase_mode_change kettleA .once 12 1 (PyNum.ofNat 85)
      (by decide) (by decide)⟩

/-- C2 (code bug): the enable write of `set_schedule` is supposed — per the
docstring of the class, the source comments at the write site, and the spec —
to carry the schedule-mode bit in bit 3 of byte 16 (set for ONCE, cleared for
DAILY), but `_write_state` then overwrites the whole of byte 16 with the bare
incremented counter.  At counter 0 a ONCE write goes out with byte 16 equal
to 1 (bit 3 clear), and at counter 7 a DAILY write goes out with byte 16
equal to 8 (bit 3 set); the remaining bytes of the claim (bit 3 of byte 0
set, byte 6 doubled temperature, byte 8 minute, byte 9 hour) are encoded as
claimed. -/
theorem C2_schedule_mode_bit_clobbered :
    (set_schedule kettleC .once 7 30 (PyNum.ofNat 85) =
      .ok (⟨[8, 2, 90, 128, 170, 3, 170, 7, 30, 7, 59, 23, 2, 15, 10, 4, 1], 1⟩,
        [[8, 2, 90, 128, 170, 3, 170, 7, 30, 7, 59, 23, 2, 15, 10, 4, 1]]) ∧
      kettleC.counter = 0 ∧
      [8, 2, 90, 128, 170, 3, 170, 7, 30, 7, 59, 23, 2, 15, 10, 4, 1].getD 16 0 &&& 0x08 = 0 ∧
      [8, 2, 90, 128, 170, 3, 170, 7, 30, 7, 59, 23, 2, 15, 10, 4, 1].getD 0 0 &&& 0x08 ≠ 0 ∧
      [8, 2, 90, 128, 170, 3, 170, 7, 30, 7, 59, 23, 2, 15, 10, 4, 1].getD 6 0 = 170 ∧
      [8, 2, 90, 128, 170, 3, 170, 7, 30, 7, 59, 23, 2, 15, 10, 4, 1].getD 8 0 = 30 ∧
      [8, 2, 90, 128, 170, 3, 170, 7, 30, 7, 59, 23, 2, 15, 10, 4, 1].getD 9 0 = 7) ∧
    (set_schedule kettleB .daily 6 0 (PyNum.ofNat 85) =
      .ok (⟨[8, 2, 90, 128, 170, 3, 170, 7, 0, 6, 59, 23, 2, 15, 10, 4, 8], 8⟩,
        [[8, 2, 90, 128, 170, 3, 170, 7, 0, 6, 59, 23, 2, 15, 10, 4, 8]]) ∧
      kettleB.counter = 7 ∧
      [8, 2, 90, 128, 170, 3, 170, 7, 0, 6, 59, 23, 2, 15, 10, 4, 8].getD 16 0 &&& 0x08 ≠ 0) :=
  ⟨⟨by rfl, rfl, by decide, by decide, rfl, rfl, rfl⟩, ⟨by rfl, rfl, by decide⟩⟩

theorem clampTemp_bounds (t : PyNum) (hd : 0 < t.den) :
    0 < (clampTemp t).den ∧ 0 ≤ (clampTemp t).num ∧
      (clampTemp t).num ≤ 100 * (clampTemp t).den := by
  unfold clampTemp pymin pymax
  by_cases h1 : t.blt (PyNum.ofNat 100) = true
  · rw [if_pos h1]
    by_cases h2 : (PyNum.ofNat 0).blt t = true
    · rw [if_pos h2]
      unfold PyNum.blt at h1 h2
      rw [decide_eq_true_eq] at h1 h2
      simp only [PyNum.ofNat] at h1 h2
      exact ⟨hd, by omega, by omega⟩
    · rw [if_neg h2]
      exact ⟨by norm_num [PyNum.ofNat], by norm_num [PyNum.ofNat], by norm_num [PyNum.ofNat]⟩
  · rw [if_neg h1]
    by_cases h2 : (PyNum.ofNat 0).blt (PyNum.ofNat 100) = true
    · rw [if_pos h2]
      exact ⟨by norm_num [PyNum.ofNat], by norm_num [PyNum.ofNat], by norm_num [PyNum.ofNat]⟩
    · rw [if_neg h2]
      exact ⟨by norm_num [PyNum.ofNat], by norm_num [PyNum.ofNat], by norm_num [PyNum.ofNat]⟩

theorem clampTemp_byte (t : PyNum) (hd : 0 < t.den) :
    (pyTrunc (clampTemp t).mul2).toNat ≤ 200 ∧ 0 ≤ pyTrunc (clampTemp t).mul2 := by
  obtain ⟨h1, h2, h3⟩ := clampTemp_bounds t hd
  unfold pyTrunc PyNum.mul2
  simp only
  rw [Int.tdiv_eq_ediv (by omega) (by omega)]
  constructor
  · have hle : (2 * (clampTemp t).num) / (clampTemp t).den ≤ 200 :=
      Int.ediv_le_of_le_mul h1 (by omega)
    have hge : 0 ≤ (2 * (clampTemp t).num) / (clampTemp t).den :=
      Int.ediv_nonneg (by omega) (by omega)
    omega
  · exact Int.ediv_nonneg (by omega) (by omega)

/-- C9 counterexample: an out-of-range chime volume does not raise before the
write — it is clamped to 10 and a physical write is performed, changing the
cached blob (byte 14 and the counter byte). -/
theorem C9_out_of_range_clamped :
    set_chime_volume kettleA 11 =
      ⟨[8, 2, 90, 128, 170, 3, 170, 7, 0, 7, 0, 12, 1, 0, 10, 0, 6], 6⟩ ∧
    (set_chime_volume kettleA 11).data ≠ kettleA.data ∧
    (set_chime_volume kettleA 11).data.getD 14 0 = 10 :=
  ⟨rfl, by decide, by decide⟩

/-- C9 (amended): hour and minute parameters outside their documented bounds
raise `ValueError` before any physical write is attempted (the call returns
the error and no state change), while out-of-range temperatures and chime
volumes are clamped into range and then written. -/
theorem C9_validation_amended : C9Claim := by
  unfold C9Claim
  refine ⟨?_, ?_, ?_, ?_, ?_, ?_⟩
  · intro s h m mo hh
    simp only [set_clock_time]
    rw [if_pos hh]
  · intro s h m mo hh hm
    simp only [set_clock_time]
    rw [if_neg (not_not_intro hh), if_pos hm]
  · intro s mode h m t hmode hh
    simp only [set_schedule]
    rw [if_neg hmode, if_pos hh]
  · intro s mode h m t hmode hh hm
    simp only [set_schedule]
    rw [if_neg hmode, if_neg (not_not_intro hh), if_pos hm]
  · intro s v hlen
    constructor
    · show ((s.data.set 14 (max 0 (min 10 v)).toNat).set 16 _).getD 14 0 = _
      rw [getD_set_ne _ _ _ 16 14 (by omega), getD_set_eq _ _ _ 14 (by omega)]
    · omega
  · intro s t hlen hd
    show ((s.data.set 4 (pyTrunc (clampTemp t).mul2).toNat).set 16 _).getD 4 0 ≤ 200
    rw [getD_set_ne _ _ _ 16 4 (by omega), getD_set_eq _ _ _ 4 (by omega)]
    exact (clampTemp_byte t hd).1

theorem set_altitude_bytes (s : KState) (hlen : s.data.length = 17) (a : Int) :
    (set_altitude s a).data.getD 2 0 =
      (pyRound30 (max 0 (min 3000 a)).toNat * 30) &&& 0xFF ∧
    (set_altitude s a).data.getD 3 0 =
      0x80 + (((pyRound30 (max 0 (min 3000 a)).toNat * 30) >>> 8) &&& 0x7F) ∧
    (set_altitude s a).data.length = 17 := by
  unfold set_altitude
  rw [write_state_data]
  refine ⟨?_, ?_, by simp [hlen]⟩
  · rw [getD_set_ne _ _ _ 16 2 (by omega), getD_set_ne _ _ _ 3 2 (by omega),
      getD_set_eq _ _ _ 2 (by omega)]
  · rw [getD_set_ne _ _ _ 16 3 (by omega), getD_set_eq _ _ _ 3 (by simp [hlen])]

/-- C8: `set_altitude` clamps to `[0, 3000]`, rounds to the nearest multiple
of 30 (within 15 m of the clamped request), and encodes the quantized value
as byte 2 low bits and byte 3 `0x80 | ((value >> 8) & 0x7F)`; setting 100 m
and reading back yields 90 m, and every value `get_altitude` returns is a
multiple of 30. -/
theorem C8_altitude (s : KState) (hlen : s.data.length = 17) (a : Int) :
    C8Claim s a := by
  unfold C8Claim
  obtain ⟨e2, e3, elen⟩ := set_altitude_bytes s hlen a
  have hq30 : pyRound30 (max 0 (min 3000 a)).toNat ≤ 100 := by
    have hA : (max 0 (min 3000 a)).toNat ≤ 3000 := by omega
    unfold pyRound30
    split_ifs <;> omega
  have hq3000 : pyRound30 (max 0 (min 3000 a)).toNat * 30 ≤ 3000 := by omega
  refine ⟨e2, ?_, Nat.mul_mod_left _ 30, hq3000, ?_, ?_, ?_, ?_⟩
  · rw [e3]
    have hsh : (pyRound30 (max 0 (min 3000 a)).toNat * 30) >>> 8 < 256 := by
      rw [Nat.shiftRight_eq_div_pow]
      omega
    have hx : ((pyRound30 (max 0 (min 3000 a)).toNat * 30) >>> 8) &&& 0x7F < 128 := by
      have := Nat.and_le_right
        (n := (pyRound30 (max 0 (min 3000 a)).toNat * 30) >>> 8) (m := 0x7F)
      omega
    exact (byteFacts _ (by omega)).2.2.2.2.2.2.2.2.2.2.2.2.2.2.2.2.2.2.1 hx
  · have hA : (max 0 (min 3000 a)).toNat % 30 = (max 0 (min 3000 a)).toNat % 30 := rfl
    unfold pyRound30
    split_ifs <;> omega
  · unfold pyRound30
    split_ifs <;> omega
  · have e2' : (set_altitude s 100).data.getD 2 0 = 90 := by
      rw [(set_altitude_bytes s hlen 100).1]
      decide
    have e3' : (set_altitude s 100).data.getD 3 0 = 128 := by
      rw [(set_altitude_bytes s hlen 100).2.1]
      decide
    have elen' : (set_altitude s 100).data.length = 17 := (set_altitude_bytes s hlen 100).2.2
    unfold get_altitude
    rw [if_neg (by omega), e2', e3']
    decide
  · intro s0 v hv
    unfold get_altitude at hv
    by_cases hl : s0.data.length < 4
    · rw [if_pos hl] at hv
      simp at hv
    · rw [if_neg hl] at hv
      simp only [Option.mem_def, Option.some.injEq] at hv
      rw [← hv]
      exact Nat.mul_mod_left _ 30

theorem C8_witness : kettleA.data.length = 17 ∧ C8Claim kettleA 100 :=
  ⟨by decide, C8_altitude kettleA (by decide) 100⟩

theorem turn_on_smart_ok_elim (s : KState) (topt : Option PyNum) (s' : KState)
    (ws : List (List Nat)) (hok : turn_on_smart s topt = .ok (s', ws)) :
    ∃ s1 ws1 s2 ws2,
      set_schedule s ScheduleMode.once (triggerTime s).1 (triggerTime s).2
        (smartTargetTemp s topt) = .ok (s1, ws1) ∧
      smartRestore (get_schedule s) s1 = .ok (s2, ws2) ∧
      s' = s2 ∧ ws = ws1 ++ ws2 := by
  unfold turn_on_smart at hok
  cases heq : set_schedule s ScheduleMode.once (triggerTime s).1 (triggerTime s).2
      (smartTargetTemp s topt) with
  | error e => rw [heq] at hok; exact absurd hok (by simp)
  | ok p =>
    obtain ⟨s1, ws1⟩ := p
    rw [heq] at hok
    simp only at hok
    cases hre : smartRestore (get_schedule s) s1 with
    | error e => rw [hre] at hok; exact absurd hok (by simp)
    | ok p2 =>
      obtain ⟨s2, ws2⟩ := p2
      rw [hre] at hok
      simp only at hok
      have hp := Except.ok.inj hok
      rw [Prod.mk.injEq] at hp
      exact ⟨s1, ws1, s2, ws2, rfl, hre, hp.1.symm, hp.2.symm⟩

theorem disabledFirst_getD_0 (s : KState) (hlen : s.data.length = 17) :
    (disabledFirst s).data.getD 0 0 = s.data.getD 0 0 &&& 0xF7 := by
  unfold disabledFirst
  rw [write_state_data, List.set_set]
  exact (offWrite_getD s.data hlen _).1

/-- C6 counterexample: a caller-supplied temperature of 0 is falsy in Python,
so the trigger write carries the current target temperature (byte 6 = 170,
i.e. 85 °C) instead of the caller value 0 that the claim requires. -/
theorem C6_zero_temp_counterexample :
    turn_on_smart kettleB (some (PyNum.ofNat 0)) =
      .ok (⟨[0, 2, 90, 128, 170, 3, 192, 7, 0, 0, 59, 23, 2, 15, 10, 4, 9], 9⟩,
        [[8, 2, 90, 128, 170, 3, 170, 7, 0, 0, 59, 23, 2, 15, 10, 4, 8],
         [0, 2, 90, 128, 170, 3, 192, 7, 0, 0, 59, 23, 2, 15, 10, 4, 9]]) ∧
    [8, 2, 90, 128, 170, 3, 170, 7, 0, 0, 59, 23, 2, 15, 10, 4, 8].getD 6 0 = 170 ∧
    [8, 2, 90, 128, 170, 3, 170, 7, 0, 0, 59, 23, 2, 15, 10, 4, 8].getD 6 0 ≠
      (pyTrunc (clampTemp (PyNum.ofNat 0)).mul2).toNat :=
  ⟨by rfl, rfl, by decide⟩

/-- C6 (amended): a successful `turn_on_smart` issues its trigger write (the
second physical write when the daily-mode device state forces a disable
first) carrying the device clock plus one minute with rollover, the schedule
enable bit, and the doubled clamped trigger temperature; the trigger
temperature is the caller-supplied value when given and nonzero, and the
cached target temperature (byte 4 halved) otherwise. -/
theorem C6_trigger_amended (s : KState) (hv : ValidState s) (topt : Option PyNum)
    (s' : KState) (ws : List (List Nat))
    (hok : turn_on_smart s topt = .ok (s', ws)) : C6Claim s topt ws := by
  obtain ⟨hlen, hb, _, _, _, _, h10, h11, _⟩ := hv
  obtain ⟨s1, ws1, s2, ws2, htrig, _, _, hws⟩ := turn_on_smart_ok_elim s topt s' ws hok
  subst hws
  have htm : ((((triggerTime s).2 : Int)).toNat) = (s.data.getD 10 0 + 1) % 60 := by
    rw [Int.toNat_natCast]
    unfold triggerTime
    split_ifs <;> (simp only []; try omega)
  have hth : ((((triggerTime s).1 : Int)).toNat) =
      (if s.data.getD 10 0 = 59 then (s.data.getD 11 0 + 1) % 24 else s.data.getD 11 0) := by
    rw [Int.toNat_natCast]
    unfold triggerTime
    split_ifs <;> (simp only []; try omega)
  rcases set_schedule_ok_cases _ _ _ _ _ _ _ htrig with
    ⟨habs, _, _⟩ | ⟨_, _, _, hnd, hs1, hw1⟩ | ⟨_, _, _, hnd, hs1, hw1⟩
  · exact absurd habs (by simp)
  · have hdaily : get_schedule_mode s = some "daily" := by
      obtain ⟨hne_off, hne_once⟩ := (needsDisable_iff s .once hlen).mp hnd
      rcases get_schedule_mode_cases s hlen with hc | hc | hc
      · exact absurd hc hne_off
      · exact absurd hc hne_once
      · exact hc
    have hidx : (ws1 ++ ws2).getD 1 [] = s1.data := by
      rw [hw1]
      have h2 : ([(disabledFirst s).data, s1.data] ++ ws2).getD 1 [] =
          [(disabledFirst s).data, s1.data].getD 1 [] :=
        getD_append_left _ _ _ 1 (by simp)
      rw [h2]
      rfl
    simp only [C6Claim]
    rw [hdaily, if_pos rfl, hidx, hs1, write_state_data, List.set_set]
    obtain ⟨e0, e6, e8, e9, _, _⟩ :=
      enableWrite_getD (disabledFirst s) ((triggerTime s).1 : Int) ((triggerTime s).2 : Int)
        (smartTargetTemp s topt) _ (disabledFirst_length s hlen)
    refine ⟨by rw [e8, htm], by rw [e9, hth], e6, ?_⟩
    rw [e0, disabledFirst_getD_0 s hlen]
    have hlt : s.data.getD 0 0 &&& 0xF7 < 256 := by
      have := Nat.and_le_right (n := s.data.getD 0 0) (m := 0xF7)
      omega
    exact (byteFacts _ hlt).2.2.2.2.2.2.2.2.2.1
  · have hnotdaily : get_schedule_mode s ≠ some "daily" := by
      intro hc
      have htrue : needsDisable s ScheduleMode.once = true :=
        (needsDisable_iff s .once hlen).mpr ⟨by rw [hc]; decide, by rw [hc]; decide⟩
      rw [hnd] at htrue
      exact absurd htrue (by simp)
    have hidx : (ws1 ++ ws2).getD 0 [] = s1.data := by
      rw [hw1]
      have h2 : ([s1.data] ++ ws2).getD 0 [] = [s1.data].getD 0 [] :=
        getD_append_left _ _ _ 0 (by simp)
      rw [h2]
      rfl
    simp only [C6Claim]
    rw [if_neg hnotdaily, hidx, hs1, write_state_data, List.set_set]
    obtain ⟨e0, e6, e8, e9, _, _⟩ :=
      enableWrite_getD s ((triggerTime s).1 : Int) ((triggerTime s).2 : Int)
        (smartTargetTemp s topt) _ hlen
    refine ⟨by rw [e8, htm], by rw [e9, hth], e6, ?_⟩
    rw [e0]
    exact (byteFacts _ (getD_lt_256 s.data hb 0)).2.2.2.2.2.2.2.2.2.1

theorem C6_witness :
    (ValidState kettleB ∧
      turn_on_smart kettleB (some (PyNum.ofNat 95)) =
        .ok (⟨[0, 2, 90, 128, 170, 3, 192, 7, 0, 0, 59, 23, 2, 15, 10, 4, 9], 9⟩,
          [[8, 2, 90, 128, 170, 3, 190, 7, 0, 0, 59, 23, 2, 15, 10, 4, 8],
           [0, 2, 90, 128, 170, 3, 192, 7, 0, 0, 59, 23, 2, 15, 10, 4, 9]])) ∧
    C6Claim kettleB (some (PyNum.ofNat 95))
      [[8, 2, 90, 128, 170, 3, 190, 7, 0, 0, 59, 23, 2, 15, 10, 4, 8],
       [0, 2, 90, 128, 170, 3, 192, 7, 0, 0, 59, 23, 2, 15, 10, 4, 9]] :=
  ⟨⟨by unfold ValidState; decide, by rfl⟩,
    C6_trigger_amended kettleB (by unfold ValidState; decide) (some (PyNum.ofNat 95)) _ _
      (by rfl)⟩

/-- C5 (code bug): at a state whose schedule is DAILY at 07:00, 85 °C, with
counter 5, `turn_on_smart` completes without error and its final write
restores the enable bit, temperature, hour and minute of the backup — but
byte 16 of the written blob is the bare counter (8), whose bit 3 decodes as
ONCE, so the final schedule does not equal the backed-up original: the
original DAILY mode is not re-encoded, because `_write_state` overwrites the
mode bit (the same byte-16 clobbering shown for C2). -/
theorem C5_restore_mode_lost :
    get_schedule_mode kettleA = some "daily" ∧
    turn_on_smart kettleA none =
      .ok (⟨[8, 2, 90, 128, 170, 3, 170, 7, 0, 7, 0, 12, 1, 0, 5, 0, 8], 8⟩,
        [[0, 2, 90, 128, 170, 3, 192, 7, 0, 0, 0, 12, 1, 0, 5, 0, 6],
         [8, 2, 90, 128, 170, 3, 170, 7, 1, 12, 0, 12, 1, 0, 5, 0, 7],
         [8, 2, 90, 128, 170, 3, 170, 7, 0, 7, 0, 12, 1, 0, 5, 0, 8]]) ∧
    get_schedule_mode ⟨[8, 2, 90, 128, 170, 3, 170, 7, 0, 7, 0, 12, 1, 0, 5, 0, 8], 8⟩ =
      some "once" ∧
    [8, 2, 90, 128, 170, 3, 170, 7, 0, 7, 0, 12, 1, 0, 5, 0, 8].getD 0 0 &&& 0x08 ≠ 0 ∧
    [8, 2, 90, 128, 170, 3, 170, 7, 0, 7, 0, 12, 1, 0, 5, 0, 8].getD 6 0 =
      kettleA.data.getD 6 0 ∧
    [8, 2, 90, 128, 170, 3, 170, 7, 0, 7, 0, 12, 1, 0, 5, 0, 8].getD 8 0 =
      kettleA.data.getD 8 0 ∧
    [8, 2, 90, 128, 170, 3, 170, 7, 0, 7, 0, 12, 1, 0, 5, 0, 8].getD 9 0 =
      kettleA.data.getD 9 0 :=
  ⟨rfl, by rfl, rfl, by decide, rfl, rfl, rfl⟩

theorem blt_eq_true (a b : PyNum) :
    (PyNum.blt a b = true) = (a.num * b.den < b.num * a.den) := by
  unfold PyNum.blt
  exact decide_eq_true_eq

theorem byteHalf_roundtrip (n : Nat) (h : n ≤ 200) :
    (pyTrunc (clampTemp (byteHalf n)).mul2).toNat = n := by
  unfold clampTemp pymin pymax byteHalf PyNum.ofNat
  simp only [blt_eq_true]
  split_ifs with h1 h2 h3
  · unfold pyTrunc PyNum.mul2
    simp only [] at h1 h2 ⊢
    rw [Int.tdiv_eq_ediv (by omega) (by omega)]
    omega
  · unfold pyTrunc PyNum.mul2
    simp only [] at h1 h2 ⊢
    rw [Int.tdiv_eq_ediv (by omega) (by omega)]
    omega
  · unfold pyTrunc PyNum.mul2
    simp only [] at h1 h3 ⊢
    rw [Int.tdiv_eq_ediv (by omega) (by omega)]
    omega
  · exact absurd (by simp only []; omega) h3

theorem framedOn_set_mem (d : List Nat) (k v : Nat) (L : List Nat) (hk : k ∈ L) :
    framedOn d (d.set k v) L := by
  intro i hi
  exact getD_set_ne d v 0 k i (fun h2 => hi (h2 ▸ hk))

theorem framedOn_comp (d1 d2 d3 : List Nat) (L : List Nat)
    (h1 : framedOn d1 d2 L) (h2 : framedOn d2 d3 L) : framedOn d1 d3 L := by
  intro i hi
  rw [h2 i hi, h1 i hi]

theorem framedOn_write_setk (s : KState) (k v : Nat) (T : List Nat) (hk : k ∈ T)
    (h16 : 16 ∈ T) : framedOn s.data (write_state s (s.data.set k v)).data T := by
  rw [write_state_data]
  exact framedOn_comp _ _ _ _ (framedOn_set_mem _ k _ _ hk) (framedOn_set_mem _ 16 _ _ h16)

theorem framedOn_offBlob (d : List Nat) (T : List Nat) (h0 : 0 ∈ T) (h6 : 6 ∈ T)
    (h8 : 8 ∈ T) (h9 : 9 ∈ T) : framedOn d (scheduleOffBlob d) T := by
  intro i hi
  unfold scheduleOffBlob
  rw [getD_set_ne _ _ _ 9 i (fun h => hi (h ▸ h9)), getD_set_ne _ _ _ 8 i (fun h => hi (h ▸ h8)),
    getD_set_ne _ _ _ 6 i (fun h => hi (h ▸ h6)), getD_set_ne _ _ _ 0 i (fun h => hi (h ▸ h0))]

theorem framedOn_enableBlob (s1 : KState) (h m : Int) (t : PyNum) (T : List Nat)
    (h0 : 0 ∈ T) (h6 : 6 ∈ T) (h8 : 8 ∈ T) (h9 : 9 ∈ T) :
    framedOn s1.data (enableBlob s1 h m t) T := by
  intro i hi
  unfold enableBlob
  rw [getD_set_ne _ _ _ 9 i (fun hh => hi (hh ▸ h9)),
    getD_set_ne _ _ _ 8 i (fun hh => hi (hh ▸ h8)),
    getD_set_ne _ _ _ 6 i (fun hh => hi (hh ▸ h6)),
    getD_set_ne _ _ _ 0 i (fun hh => hi (hh ▸ h0))]

theorem framedOn_disabledFirst (s : KState) :
    framedOn s.data (disabledFirst s).data [0, 6, 8, 9, 16] := by
  unfold disabledFirst
  rw [write_state_data, List.set_set]
  exact framedOn_comp _ _ _ _
    (framedOn_offBlob s.data _ (by decide) (by decide) (by decide) (by decide))
    (framedOn_set_mem _ 16 _ _ (by decide))

theorem framedOn_enableWrite (s1 : KState) (h m : Int) (t : PyNum) (v c : Nat) :
    framedOn s1.data (((enableBlob s1 h m t).set 16 v).set 16 c) [0, 6, 8, 9, 16] := by
  rw [List.set_set]
  exact framedOn_comp _ _ _ _
    (framedOn_enableBlob s1 h m t _ (by decide) (by decide) (by decide) (by decide))
    (framedOn_set_mem _ 16 _ _ (by decide))

theorem schedule_reenable_aux (s : KState) (mode : ScheduleMode)
    (hlen : s.data.length = 17) (hb : ∀ b ∈ s.data, b < 256)
    (h6 : s.data.getD 6 0 ≤ 200) (h8 : s.data.getD 8 0 ≤ 59) (h9 : s.data.getD 9 0 ≤ 23)
    (h255 : mode = ScheduleMode.once → s.data.getD 16 0 ≠ 255)
    (hen : s.data.getD 0 0 &&& 0x08 ≠ 0) (hmode : mode ≠ ScheduleMode.off)
    (hcm : get_schedule_mode s = some mode.pyName) :
    ∃ s' ws, set_schedule s mode (s.data.getD 9 0) (s.data.getD 8 0)
        (byteHalf (s.data.getD 6 0)) = .ok (s', ws) ∧ framedOn s.data s'.data [16] := by
  have hnd : needsDisable s mode = false := by
    cases hB : needsDisable s mode with
    | false => rfl
    | true => exact absurd hcm ((needsDisable_iff s mode hlen).mp hB).2
  unfold set_schedule
  rw [if_neg hmode, if_neg (not_not_intro ⟨by omega, by omega⟩),
    if_neg (not_not_intro ⟨by omega, by omega⟩), hnd, if_neg (by simp)]
  unfold schedEnablePhase
  have hnd16 : (enableBlob s ((s.data.getD 9 0 : Nat) : Int) ((s.data.getD 8 0 : Nat) : Int)
      (byteHalf (s.data.getD 6 0))).getD 16 0 = s.data.getD 16 0 := by
    unfold enableBlob
    rw [getD_set_ne _ _ _ 9 16 (by omega), getD_set_ne _ _ _ 8 16 (by omega),
      getD_set_ne _ _ _ 6 16 (by omega), getD_set_ne _ _ _ 0 16 (by omega)]
  have hv255 : enableByte16 (enableBlob s ((s.data.getD 9 0 : Nat) : Int)
      ((s.data.getD 8 0 : Nat) : Int) (byteHalf (s.data.getD 6 0))) mode ≤ 255 := by
    unfold enableByte16
    rw [hnd16]
    have hd16 := getD_lt_256 s.data hb 16
    by_cases ho : mode = ScheduleMode.once
    · rw [if_pos ho]
      have hbit : (s.data.getD 16 0 >>> 3) &&& 1 = 1 := by
        rw [ho] at hcm
        unfold get_schedule_mode at hcm
        rw [if_neg (by omega), if_neg hen] at hcm
        by_cases hb3 : (s.data.getD 16 0 >>> 3) &&& 1 = 1
        · exact hb3
        · rw [if_neg hb3] at hcm
          exact absurd (Option.some.inj hcm) (by decide)
      have h247 : s.data.getD 16 0 ≠ 247 := by
        intro hq
        rw [hq] at hbit
        exact absurd hbit (by decide)
      exact (byteFacts _ hd16).2.2.2.2.2.2.2.2.2.2.1 h247 (h255 ho)
    · rw [if_neg ho]
      exact (byteFacts _ hd16).2.2.2.2.2.2.2.2.2.2.2.1
  rw [if_pos hv255]
  refine ⟨_, _, rfl, ?_⟩
  rw [write_state_data, List.set_set]
  have hcol : enableBlob s ((s.data.getD 9 0 : Nat) : Int) ((s.data.getD 8 0 : Nat) : Int)
      (byteHalf (s.data.getD 6 0)) = s.data := by
    unfold enableBlob
    rw [Int.toNat_natCast, Int.toNat_natCast, byteHalf_roundtrip _ h6,
      (byteFacts _ (getD_lt_256 s.data hb 0)).2.2.1 hen,
      set_getD_self s.data 0 (by omega), set_getD_self s.data 6 (by omega),
      set_getD_self s.data 8 (by omega), set_getD_self s.data 9 (by omega)]
  rw [hcol]
  exact framedOn_set_mem _ 16 _ _ (by decide)

/-- C1 (amended): every setter derives its outgoing blob from the previous
cached blob with only the targeted bits and bytes altered and every other byte
copied unchanged — in particular the unknown bytes 5 and 7 always pass
through — and re-encoding every field with its currently decoded value
reproduces the original bytes except for the write counter in byte 16, with
one exception: re-encoding an enabled schedule whose cached byte 16 is 255
raises `ValueError` (`(255 | 0x08) + 1 = 256`) before any write and reproduces
nothing. -/
theorem C1_frame_and_roundtrip (s : KState) (hv : ValidState s) : C1Claim s := by
  obtain ⟨hlen, hb, h4, h6, h8, h9, h10, h11, h12, h13, h14, h15,
    h3, halt, halt30, hdis⟩ := hv
  unfold C1Claim
  refine ⟨?_, ?_, ?_, ?_, ?_, ?_, ?_, ?_, ?_, ?_, ?_, ?_, ?_, ?_, ?_, ?_, ?_, ?_,
    ?_, ?_, ?_, ?_, ?_⟩
  · intro t
    simp only [set_target_temperature]
    exact framedOn_write_setk s 4 _ _ (by decide) (by decide)
  · intro u
    constructor
    · simp only [set_units]
      exact framedOn_write_setk s 1 _ _ (by decide) (by decide)
    · simp only [set_units]
      rw [write_state_data, getD_set_ne _ _ _ 16 1 (by omega),
        getD_set_eq _ _ _ 1 (by omega)]
      have hd1 := getD_lt_256 s.data hb 1
      cases u with
      | celsius =>
        rw [if_pos rfl]
        exact (byteFacts _ hd1).2.2.2.2.1
      | fahrenheit =>
        rw [if_neg (by decide)]
        exact (byteFacts _ hd1).2.2.2.2.2.1
  · intro m
    simp only [set_clock_mode]
    exact framedOn_write_setk s 12 _ _ (by decide) (by decide)
  · intro h m s' hok
    unfold set_clock_time at hok
    by_cases hc1 : ¬(0 ≤ h ∧ h ≤ 23)
    · rw [if_pos hc1] at hok
      exact absurd hok (by simp)
    · rw [if_neg hc1] at hok
      by_cases hc2 : ¬(0 ≤ m ∧ m ≤ 59)
      · rw [if_pos hc2] at hok
        exact absurd hok (by simp)
      · rw [if_neg hc2] at hok
        simp only at hok
        rw [← Except.ok.inj hok, write_state_data]
        exact framedOn_comp _ _ _ _
          (framedOn_comp _ _ _ _ (framedOn_set_mem _ 10 _ _ (by decide))
            (framedOn_set_mem _ 11 _ _ (by decide)))
          (framedOn_set_mem _ 16 _ _ (by decide))
  · intro h m cm s' hok
    unfold set_clock_time at hok
    by_cases hc1 : ¬(0 ≤ h ∧ h ≤ 23)
    · rw [if_pos hc1] at hok
      exact absurd hok (by simp)
    · rw [if_neg hc1] at hok
      by_cases hc2 : ¬(0 ≤ m ∧ m ≤ 59)
      · rw [if_pos hc2] at hok
        exact absurd hok (by simp)
      · rw [if_neg hc2] at hok
        simp only at hok
        rw [← Except.ok.inj hok, write_state_data]
        exact framedOn_comp _ _ _ _
          (framedOn_comp _ _ _ _
            (framedOn_comp _ _ _ _ (framedOn_set_mem _ 10 _ _ (by decide))
              (framedOn_set_mem _ 11 _ _ (by decide)))
            (framedOn_set_mem _ 12 _ _ (by decide)))
          (framedOn_set_mem _ 16 _ _ (by decide))
  · intro v
    simp only [set_chime_volume]
    exact framedOn_write_setk s 14 _ _ (by decide) (by decide)
  · intro b
    constructor
    · simp only [set_pre_boil]
      exact framedOn_write_setk s 1 _ _ (by decide) (by decide)
    · simp only [set_pre_boil]
      rw [write_state_data, getD_set_ne _ _ _ 16 1 (by omega),
        getD_set_eq _ _ _ 1 (by omega)]
      have hd1 := getD_lt_256 s.data hb 1
      cases b with
      | true =>
        rw [if_pos rfl]
        exact (byteFacts _ hd1).2.2.2.2.2.2.1
      | false =>
        rw [if_neg (by decide)]
        exact (byteFacts _ hd1).2.2.2.2.2.2.2.1
  · intro m
    simp only [set_hold_time]
    exact framedOn_write_setk s 13 _ _ (by decide) (by decide)
  · intro a
    simp only [set_altitude]
    rw [write_state_data]
    exact framedOn_comp _ _ _ _
      (framedOn_comp _ _ _ _ (framedOn_set_mem _ 2 _ _ (by decide))
        (framedOn_set_mem _ 3 _ _ (by decide)))
      (framedOn_set_mem _ 16 _ _ (by decide))
  · intro l
    simp only [set_language]
    exact framedOn_write_setk s 15 _ _ (by decide) (by decide)
  · intro mode h m t s' ws hok
    rcases set_schedule_ok_cases s mode h m t s' ws hok with
      ⟨_, hs, hw⟩ | ⟨_, _, _, _, hs, hw⟩ | ⟨_, _, _, _, hs, hw⟩
    · have hf : framedOn s.data s'.data [0, 6, 8, 9, 16] := by
        rw [hs, write_state_data]
        exact framedOn_comp _ _ _ _
          (framedOn_offBlob s.data _ (by decide) (by decide) (by decide) (by decide))
          (framedOn_set_mem _ 16 _ _ (by decide))
      refine ⟨hf, ?_⟩
      intro w hw2
      rw [hw, List.mem_singleton] at hw2
      rw [hw2]
      exact hf
    · have hf1 : framedOn s.data (disabledFirst s).data [0, 6, 8, 9, 16] :=
        framedOn_disabledFirst s
      have hf2 : framedOn s.data s'.data [0, 6, 8, 9, 16] := by
        rw [hs, write_state_data]
        exact framedOn_comp _ _ _ _ hf1 (framedOn_enableWrite (disabledFirst s) _ _ _ _ _)
      refine ⟨hf2, ?_⟩
      intro w hw2
      rw [hw] at hw2
      simp only [List.mem_cons, List.not_mem_nil, or_false] at hw2
      rcases hw2 with hw2 | hw2
      · rw [hw2]; exact hf1
      · rw [hw2]; exact hf2
    · have hf : framedOn s.data s'.data [0, 6, 8, 9, 16] := by
        rw [hs, write_state_data]
        exact framedOn_enableWrite s _ _ _ _ _
      refine ⟨hf, ?_⟩
      intro w hw2
      rw [hw, List.mem_singleton] at hw2
      rw [hw2]
      exact hf
  · simp only [set_target_temperature]
    rw [write_state_data, byteHalf_roundtrip _ h4, set_getD_self s.data 4 (by omega)]
    exact framedOn_set_mem _ 16 _ _ (by decide)
  · by_cases hu : s.data.getD 1 0 &&& 0x02 = 0
    · rw [if_pos hu]
      have hdata : (set_units s Units.fahrenheit).data =
          (s.data.set 1 (s.data.getD 1 0 &&& 0xFD)).set 16 ((s.counter + 1) % 256) := rfl
      rw [hdata, (byteFacts _ (getD_lt_256 s.data hb 1)).2.1 hu,
        set_getD_self s.data 1 (by omega)]
      exact framedOn_set_mem _ 16 _ _ (by decide)
    · rw [if_neg hu]
      have hdata : (set_units s Units.celsius).data =
          (s.data.set 1 (s.data.getD 1 0 ||| 0x02)).set 16 ((s.counter + 1) % 256) := rfl
      rw [hdata, (byteFacts _ (getD_lt_256 s.data hb 1)).1 hu,
        set_getD_self s.data 1 (by omega)]
      exact framedOn_set_mem _ 16 _ _ (by decide)
  · intro m hm
    simp only [set_clock_mode]
    rw [write_state_data, hm, set_getD_self s.data 12 (by omega)]
    exact framedOn_set_mem _ 16 _ _ (by decide)
  · refine ⟨write_state s ((s.data.set 10 (((s.data.getD 10 0 : Nat) : Int)).toNat).set 11
      (((s.data.getD 11 0 : Nat) : Int)).toNat), ?_, ?_⟩
    · unfold set_clock_time
      rw [if_neg (not_not_intro ⟨by omega, by omega⟩),
        if_neg (not_not_intro ⟨by omega, by omega⟩)]
    · rw [write_state_data, Int.toNat_natCast, Int.toNat_natCast,
        set_getD_self s.data 10 (by omega), set_getD_self s.data 11 (by omega)]
      exact framedOn_set_mem _ 16 _ _ (by decide)
  · simp only [set_chime_volume]
    rw [write_state_data]
    have hv14 : (max 0 (min 10 ((s.data.getD 14 0 : Nat) : Int))).toNat = s.data.getD 14 0 := by
      omega
    rw [hv14, set_getD_self s.data 14 (by omega)]
    exact framedOn_set_mem _ 16 _ _ (by decide)
  · by_cases hp : s.data.getD 1 0 &&& 0x08 = 0
    · have harg : (s.data.getD 1 0 &&& 0x08 != 0) = false := by rw [hp]; rfl
      rw [harg]
      have hdata : (set_pre_boil s false).data =
          (s.data.set 1 (s.data.getD 1 0 &&& 0xF7)).set 16 ((s.counter + 1) % 256) := rfl
      rw [hdata, (byteFacts _ (getD_lt_256 s.data hb 1)).2.2.2.1 hp,
        set_getD_self s.data 1 (by omega)]
      exact framedOn_set_mem _ 16 _ _ (by decide)
    · have harg : (s.data.getD 1 0 &&& 0x08 != 0) = true := by rw [bne_iff_ne]; exact hp
      rw [harg]
      have hdata : (set_pre_boil s true).data =
          (s.data.set 1 (s.data.getD 1 0 ||| 0x08)).set 16 ((s.counter + 1) % 256) := rfl
      rw [hdata, (byteFacts _ (getD_lt_256 s.data hb 1)).2.2.1 hp,
        set_getD_self s.data 1 (by omega)]
      exact framedOn_set_mem _ 16 _ _ (by decide)
  · simp only [set_hold_time]
    rw [write_state_data]
    have hv13 : (max 0 (min 60 ((s.data.getD 13 0 : Nat) : Int))).toNat = s.data.getD 13 0 := by
      omega
    rw [hv13, set_getD_self s.data 13 (by omega)]
    exact framedOn_set_mem _ 16 _ _ (by decide)
  · have hga : get_altitude s =
        some (pyRound30 (((s.data.getD 3 0 &&& 0x7F) <<< 8) ||| s.data.getD 2 0) * 30) := by
      unfold get_altitude
      rw [if_neg (by omega)]
    have hround : pyRound30 (((s.data.getD 3 0 &&& 0x7F) <<< 8) ||| s.data.getD 2 0) * 30 =
        ((s.data.getD 3 0 &&& 0x7F) <<< 8) ||| s.data.getD 2 0 := by
      unfold pyRound30
      rw [if_pos (by omega)]
      omega
    rw [hga]
    simp only [Option.getD_some]
    rw [hround]
    simp only [set_altitude]
    rw [write_state_data]
    have hclamp : (max (0 : Int) (min (3000 : Int)
        ((((s.data.getD 3 0 &&& 0x7F) <<< 8) ||| s.data.getD 2 0 : Nat) : Int))).toNat =
        ((s.data.getD 3 0 &&& 0x7F) <<< 8) ||| s.data.getD 2 0 := by
      omega
    rw [hclamp, hround]
    have hx : s.data.getD 3 0 &&& 0x7F < 128 := by
      have hle := Nat.and_le_right (n := s.data.getD 3 0) (m := 0x7F)
      omega
    have hy := getD_lt_256 s.data hb 2
    obtain ⟨hb2, hb3s, _⟩ := alt_bits (s.data.getD 3 0 &&& 0x7F) (s.data.getD 2 0) hx hy
    rw [hb2, hb3s, (byteFacts _ (getD_lt_256 s.data hb 3)).2.2.2.2.2.2.2.2.2.2.2.2.2.2.2.2.2.2.2,
      (byteFacts _ (getD_lt_256 s.data hb 3)).2.2.2.2.2.2.2.2.2.2.2.2.1 h3,
      set_getD_self s.data 2 (by omega), set_getD_self s.data 3 (by omega)]
    exact framedOn_set_mem _ 16 _ _ (by decide)
  · intro l hl
    simp only [set_language]
    rw [write_state_data, hl, set_getD_self s.data 15 (by omega)]
    exact framedOn_set_mem _ 16 _ _ (by decide)
  · intro hdis0
    obtain ⟨hsent6, hsent8, hsent9⟩ := hdis hdis0
    refine ⟨write_state s (scheduleOffBlob s.data),
      [(write_state s (scheduleOffBlob s.data)).data], rfl, ?_⟩
    intro i hi
    have hi16 : i ≠ 16 := by simpa using hi
    obtain ⟨e0, e6, e8, e9, _, erest⟩ := offWrite_getD s.data hlen ((s.counter + 1) % 256)
    rw [write_state_data]
    by_cases hc0 : i = 0
    · rw [hc0, e0, (byteFacts _ (getD_lt_256 s.data hb 0)).2.2.2.1 hdis0]
    by_cases hc6 : i = 6
    · rw [hc6, e6, hsent6]
    by_cases hc8 : i = 8
    · rw [hc8, e8, hsent8]
    by_cases hc9 : i = 9
    · rw [hc9, e9, hsent9]
    exact erest i hc0 hc6 hc8 hc9 hi16
  · intro hen hne255
    by_cases hbit : (s.data.getD 16 0 >>> 3) &&& 1 = 1
    · rw [if_pos hbit]
      refine schedule_reenable_aux s .once hlen hb h6 h8 h9 (fun _ => hne255) hen
        (by decide) ?_
      unfold get_schedule_mode
      rw [if_neg (by omega), if_neg hen, if_pos hbit]
      rfl
    · rw [if_neg hbit]
      refine schedule_reenable_aux s .daily hlen hb h6 h8 h9
        (fun hq => absurd hq (by decide)) hen (by decide) ?_
      unfold get_schedule_mode
      rw [if_neg (by omega), if_neg hen, if_neg hbit]
      rfl
  · intro hen h255eq
    have hbit : (s.data.getD 16 0 >>> 3) &&& 1 = 1 := by rw [h255eq]; decide
    rw [if_pos hbit]
    unfold set_schedule
    rw [if_neg (by decide), if_neg (not_not_intro ⟨by omega, by omega⟩),
      if_neg (not_not_intro ⟨by omega, by omega⟩)]
    have hnd : needsDisable s ScheduleMode.once = false := by
      cases hB : needsDisable s ScheduleMode.once with
      | false => rfl
      | true =>
        have hcm : get_schedule_mode s = some "once" := by
          unfold get_schedule_mode
          rw [if_neg (by omega), if_neg hen, if_pos hbit]
        exact absurd hcm ((needsDisable_iff s ScheduleMode.once hlen).mp hB).2
    rw [hnd, if_neg (by simp)]
    unfold schedEnablePhase
    have hnd16 : (enableBlob s ((s.data.getD 9 0 : Nat) : Int)
        ((s.data.getD 8 0 : Nat) : Int) (byteHalf (s.data.getD 6 0))).getD 16 0 =
        s.data.getD 16 0 := by
      unfold enableBlob
      rw [getD_set_ne _ _ _ 9 16 (by omega), getD_set_ne _ _ _ 8 16 (by omega),
        getD_set_ne _ _ _ 6 16 (by omega), getD_set_ne _ _ _ 0 16 (by omega)]
    have hvno : ¬ enableByte16 (enableBlob s ((s.data.getD 9 0 : Nat) : Int)
        ((s.data.getD 8 0 : Nat) : Int) (byteHalf (s.data.getD 6 0)))
        ScheduleMode.once ≤ 255 := by
      unfold enableByte16
      rw [if_pos rfl, hnd16, h255eq]
      decide
    rw [if_neg hvno]

/-- C1 counterexample to the original full round-trip claim: `kettleD` is a
well-formed cached blob (every byte a byte, every field in range, schedule
enabled, byte 16 equal to 255, a value the write counter reaches every 256
writes).  Its schedule decodes as ONCE at 07:00 with temperature 85 °C, and
re-encoding exactly those decoded values raises `ValueError` at the byte-16
assignment (`(255 | 0x08) + 1 = 256`) before any write, so the schedule
re-encode reproduces nothing at all rather than the original bytes. -/
theorem C1_byte16_overflow_counterexample :
    ValidState kettleD ∧
    get_schedule_mode kettleD = some "once" ∧
    kettleD.data.getD 9 0 = 7 ∧ kettleD.data.getD 8 0 = 0 ∧
    kettleD.data.getD 6 0 = 170 ∧
    set_schedule kettleD .once 7 0 (byteHalf 170) =
      .error ("byte must be in range(0, 256)", kettleD, []) :=
  ⟨by unfold ValidState; decide, rfl, rfl, rfl, rfl, by rfl⟩

theorem C1_witness : ValidState kettleA ∧ C1Claim kettleA :=
  ⟨by unfold ValidState; decide,
    C1_frame_and_roundtrip kettleA (by unfold ValidState; decide)⟩

end StaggEKG
